import Mathlib

/-!
Verification of the openclaw-browser-guard core against its specification.

The definitions below are a shallow embedding of the TypeScript sources:
  src/core/types.ts, src/core/task-parser.ts, src/policy/engine.ts,
  src/policy/http-filter.ts, src/planner/dag-builder.ts,
  src/executor/element-refs.ts, src/executor/bulk-actions.ts.
Regular expressions used by the source are embedded as executable string
predicates with the same matching semantics on the character classes the
source patterns use (ASCII whitespace for the backslash-s class, ASCII
digits for the backslash-d class).  JavaScript `Map` values are embedded
as insertion-ordered association lists, and `Set` values as
insertion-ordered duplicate-free lists, matching JavaScript iteration
order.  Theorems about each claim follow after all definitions.
-/

set_option maxRecDepth 4000

-- ==========================================================================
-- Generic string helpers
-- ==========================================================================

/-- Is `pat` a prefix of some suffix starting at each successive position? -/
def listContainsSub : List Char → List Char → Bool
  | cs, pat =>
      if pat.isPrefixOf cs then true
      else match cs with
        | [] => false
        | _ :: cs' => listContainsSub cs' pat

/-- Substring test: does `hay` contain `pat` as a contiguous substring? -/
def containsSub (hay pat : String) : Bool :=
  listContainsSub hay.toList pat.toList

/-- ASCII lower-casing, the embedding of `toLowerCase` on the ASCII inputs
this code base deals with (built from lists so that it reduces
definitionally). -/
def strLower (s : String) : String :=
  String.mk (s.toList.map Char.toLower)

def strUpper (s : String) : String :=
  String.mk (s.toList.map Char.toUpper)

def strStartsWith (s pre : String) : Bool :=
  pre.toList.isPrefixOf s.toList

def strEndsWith (s suf : String) : Bool :=
  suf.toList.reverse.isPrefixOf s.toList.reverse

/-- ASCII whitespace, the characters matched by the JavaScript regex
whitespace class on the inputs this code base deals with. -/
def isWsChar (c : Char) : Bool :=
  c = ' ' || c = '\t' || c = '\n' || c = '\r' || c = '\x0b' || c = '\x0c'

-- ==========================================================================
-- A small matcher for the fixed regex shapes used by the policy engine
-- (literal runs, \s*, an optional single character, \d)
-- ==========================================================================

inductive PatTok where
  | lit (s : String)
  | ws
  | optChar (c : Char)
  | digit
deriving Repr, DecidableEq

/-- Match a token sequence at the head of a character list.  `ws` is the
greedy embedding of the Kleene-starred whitespace class; greediness is
exact here because in every source pattern the token after `ws` starts
with a non-whitespace character. -/
def matchToksAt : List PatTok → List Char → Bool
  | [], _ => true
  | PatTok.lit s :: ts, cs =>
      if s.toList.isPrefixOf cs then matchToksAt ts (cs.drop s.length) else false
  | PatTok.ws :: ts, cs => matchToksAt ts (cs.dropWhile isWsChar)
  | PatTok.optChar c :: ts, cs =>
      (match cs with
       | c' :: rest => c' = c && matchToksAt ts rest
       | [] => false) || matchToksAt ts cs
  | PatTok.digit :: ts, cs =>
      match cs with
      | c :: rest => c.isDigit && matchToksAt ts rest
      | [] => false

/-- Unanchored match: the token sequence matches at some position. -/
def matchSomewhere (toks : List PatTok) : List Char → Bool
  | [] => matchToksAt toks []
  | c :: cs => matchToksAt toks (c :: cs) || matchSomewhere toks cs

-- ==========================================================================
-- A regex-lite backtracking matcher for the word-boundary patterns of the
-- task parser (src/core/task-parser.ts)
-- ==========================================================================

/-- JavaScript word character (the backslash-w class). -/
def isWordChar (c : Char) : Bool :=
  c.isAlphanum || c = '_'

def prevIsWord : Option Char → Bool
  | some c => isWordChar c
  | none => false

def headIsWord : List Char → Bool
  | c :: _ => isWordChar c
  | [] => false

/-- A word boundary holds when exactly one side is a word character. -/
def boundaryAt (prev : Option Char) (cs : List Char) : Bool :=
  prevIsWord prev != headIsWord cs

/-- Tokens of the regex subset the task parser uses: literals, word
boundaries, an optional single character, exactly-n character-class
repetition, one-or-more and zero-or-more character classes. -/
inductive RTok where
  | lit (s : String)
  | bnd
  | opt (p : Char → Bool)
  | clsN (p : Char → Bool) (n : Nat)
  | cls (p : Char → Bool)
  | star (p : Char → Bool)

def lastCharOr (s : String) (prev : Option Char) : Option Char :=
  match s.toList.getLast? with
  | some c => some c
  | none => prev

/-- Anchored match of a token sequence, with full backtracking, threading
the character just before the current position for boundary tests.
Returns whether some way of consuming a prefix of `cs` matches.  The
`fuel` argument only makes the recursion structural: every recursive call
strictly decreases `cs.length + toks.length`, each call decrements `fuel`
by one, and every caller supplies `cs.length + toks.length + 1`, so the
zero-fuel branch is unreachable. -/
def rMatch : Nat → Option Char → List RTok → List Char → Bool
  | 0, _, _, _ => false
  | Nat.succ _, _, [], _ => true
  | Nat.succ f, prev, RTok.bnd :: ts, cs => boundaryAt prev cs && rMatch f prev ts cs
  | Nat.succ f, prev, RTok.lit s :: ts, cs =>
      s.toList.isPrefixOf cs && rMatch f (lastCharOr s prev) ts (cs.drop s.length)
  | Nat.succ f, prev, RTok.opt p :: ts, cs =>
      (match cs with
       | c :: rest => p c && rMatch f (some c) ts rest
       | [] => false) || rMatch f prev ts cs
  | Nat.succ f, prev, RTok.clsN p n :: ts, cs =>
      match n with
      | 0 => rMatch f prev ts cs
      | Nat.succ m =>
          match cs with
          | c :: rest => p c && rMatch f (some c) (RTok.clsN p m :: ts) rest
          | [] => false
  | Nat.succ f, _, RTok.cls p :: ts, cs =>
      (match cs with
       | c :: rest =>
           p c && (rMatch f (some c) ts rest || rMatch f (some c) (RTok.cls p :: ts) rest)
       | [] => false)
  | Nat.succ f, prev, RTok.star p :: ts, cs =>
      rMatch f prev ts cs ||
      (match cs with
       | c :: rest => p c && rMatch f (some c) (RTok.star p :: ts) rest
       | [] => false)

/-- Unanchored search from a given left context. -/
def rSearch (toks : List RTok) : Option Char → List Char → Bool
  | prev, cs =>
      rMatch (cs.length + toks.length + 1) prev toks cs ||
      match cs with
      | [] => false
      | c :: cs' => rSearch toks (some c) cs'

/-- `RegExp.prototype.test` for a pattern given as alternatives of token
sequences. -/
def rTest (alts : List (List RTok)) (s : String) : Bool :=
  alts.any (fun alt => rSearch alt none s.toList)

-- ==========================================================================
-- Core types (src/core/types.ts)
-- ==========================================================================

inductive ActionType where
  | navigate | click | scroll | typeText | extract | screenshot | wait
deriving Repr, DecidableEq

inductive TaskType where
  | search | extract | monitor | interact | purchase | login
deriving Repr, DecidableEq

structure BrowsingIntent where
  goal : String
  taskType : TaskType
  allowedDomains : List String
  allowedActions : List ActionType
  sensitiveData : List String
  maxDepth : Nat
  timeout : Nat
  originalRequest : String
deriving Repr, DecidableEq

structure BrowserAction where
  actionType : ActionType
  target : Option String := none
  value : Option String := none
  description : String
deriving Repr, DecidableEq

inductive PolicyEffect where
  | allow | deny | confirm
deriving Repr, DecidableEq

inductive PolicySource where
  | staticSrc | site | task | user
deriving Repr, DecidableEq

structure RuleScope where
  domains : Option (List String) := none
  actions : Option (List ActionType) := none
  taskTypes : Option (List TaskType) := none
deriving Repr, DecidableEq

structure PolicyRule where
  id : String
  source : PolicySource
  scope : RuleScope
  effect : PolicyEffect
  description : String
  priority : Nat
deriving Repr, DecidableEq

structure PolicyDecision where
  allowed : Bool
  effect : PolicyEffect
  matchedRule : Option PolicyRule := none
  reason : Option String := none
deriving Repr, DecidableEq

/-- Execution context seen by the policy engine.  The `extractedData` bag
of the source is omitted: the policy engine never reads it. -/
structure ExecutionContext where
  currentUrl : String
  currentDomain : String
  visitedUrls : List String
  depth : Nat
  startTime : Nat
deriving Repr, DecidableEq

-- ==========================================================================
-- Static policy data (src/policy/engine.ts)
-- ==========================================================================

def STATIC_POLICIES : List PolicyRule :=
  [ { id := "static:no-auto-payment", source := PolicySource.staticSrc,
      scope := { actions := some [ActionType.click, ActionType.typeText] },
      effect := PolicyEffect.deny,
      description := "Block automatic payment submission - requires user confirmation",
      priority := 0 },
    { id := "static:https-only-credentials", source := PolicySource.staticSrc,
      scope := { taskTypes := some [TaskType.login] },
      effect := PolicyEffect.deny,
      description := "Block credential entry on non-HTTPS sites",
      priority := 0 },
    { id := "static:no-executable-download", source := PolicySource.staticSrc,
      scope := { actions := some [ActionType.click, ActionType.navigate] },
      effect := PolicyEffect.deny,
      description := "Block download of executable files",
      priority := 0 },
    { id := "static:block-malicious-domains", source := PolicySource.staticSrc,
      scope := {},
      effect := PolicyEffect.deny,
      description := "Block navigation to known malicious domains",
      priority := 0 },
    { id := "static:confirm-form-submit", source := PolicySource.staticSrc,
      scope := { actions := some [ActionType.click] },
      effect := PolicyEffect.confirm,
      description := "Require confirmation for form submissions",
      priority := 10 },
    { id := "static:confirm-external-nav", source := PolicySource.staticSrc,
      scope := { actions := some [ActionType.navigate, ActionType.click] },
      effect := PolicyEffect.confirm,
      description := "Require confirmation for navigation outside allowed domains",
      priority := 10 } ]

/-- MALICIOUS_DOMAIN_PATTERNS test: the first two source patterns carry the
case-insensitive flag, the last three do not. -/
def isMaliciousDomain (domain : String) : Bool :=
  containsSub (strLower domain) "phishing." ||
  containsSub (strLower domain) "malware." ||
  strEndsWith domain ".ru" ||
  containsSub domain "bit.ly" ||
  containsSub domain "tinyurl.com"

/-- EXECUTABLE_PATTERNS: each pattern is an anchored case-insensitive
file-extension test. -/
def EXECUTABLE_EXTENSIONS : List String :=
  [".exe", ".msi", ".dmg", ".pkg", ".app", ".bat", ".cmd", ".sh", ".ps1"]

def testExecutable (s : String) : Bool :=
  EXECUTABLE_EXTENSIONS.any (fun ext => strEndsWith (strLower s) ext)

/-- PAYMENT_INDICATORS: each case-insensitive source regex rendered as a
token sequence over lower-case text. -/
def PAYMENT_INDICATORS : List (List PatTok) :=
  [ [PatTok.lit "pay", PatTok.ws, PatTok.lit "now"],
    [PatTok.lit "pay", PatTok.ws, PatTok.optChar '$', PatTok.digit],
    [PatTok.lit "place", PatTok.ws, PatTok.lit "order"],
    [PatTok.lit "complete", PatTok.ws, PatTok.lit "purchase"],
    [PatTok.lit "submit", PatTok.ws, PatTok.lit "payment"],
    [PatTok.lit "buy", PatTok.ws, PatTok.lit "now"],
    [PatTok.lit "buy", PatTok.ws, PatTok.lit "for", PatTok.ws, PatTok.lit "$"],
    [PatTok.lit "checkout"],
    [PatTok.lit "confirm", PatTok.ws, PatTok.lit "payment"],
    [PatTok.lit "process", PatTok.ws, PatTok.lit "payment"] ]

def testPayment (s : String) : Bool :=
  PAYMENT_INDICATORS.any (fun p => matchSomewhere p (strLower s).toList)

-- ==========================================================================
-- Engine construction: task-derived rules and the sorted rule list
-- ==========================================================================

def deriveTaskPolicies (intent : BrowsingIntent) : List PolicyRule :=
  [ { id := "task:domain-allowlist", source := PolicySource.task,
      scope := { domains := some intent.allowedDomains },
      effect := PolicyEffect.allow,
      description := "Allow navigation to: " ++ String.intercalate ", " intent.allowedDomains,
      priority := 5 },
    { id := "task:domain-denylist", source := PolicySource.task,
      scope := {},
      effect := PolicyEffect.deny,
      description := "Deny navigation outside allowed domains",
      priority := 100 },
    { id := "task:action-allowlist", source := PolicySource.task,
      scope := { actions := some intent.allowedActions },
      effect := PolicyEffect.allow,
      description := "Allow actions for this task",
      priority := 5 } ] ++
  (if intent.taskType = TaskType.search ∨ intent.taskType = TaskType.extract then
    [ { id := "task:read-only-no-submit", source := PolicySource.task,
        scope := { actions := some [ActionType.click] },
        effect := PolicyEffect.confirm,
        description := "Read-only task - confirm before form submission",
        priority := 20 } ]
   else []) ++
  (if intent.taskType = TaskType.login then
    [ { id := "task:login-single-site", source := PolicySource.task,
        scope := {},
        effect := PolicyEffect.deny,
        description := "Login task - deny redirects to other domains",
        priority := 5 } ]
   else [])

/-- Stable insertion preserving the original order of equal priorities,
the embedding of the stable `Array.prototype.sort` comparator used by the
engine. -/
def insertByPriority (r : PolicyRule) : List PolicyRule → List PolicyRule
  | [] => [r]
  | x :: xs =>
      if r.priority ≤ x.priority then r :: x :: xs else x :: insertByPriority r xs

def sortByPriority (rules : List PolicyRule) : List PolicyRule :=
  rules.foldr insertByPriority []

/-- The rule list held by a `PolicyEngine` constructed with an optional
intent: static rules, plus task-derived rules, sorted by priority. -/
def engineRules (intent : Option BrowsingIntent) : List PolicyRule :=
  sortByPriority (STATIC_POLICIES ++ (intent.map deriveTaskPolicies).getD [])

-- ==========================================================================
-- URL hostname extraction (embedding of `new URL(url).hostname`)
-- ==========================================================================

/-- Split a character list at the first occurrence of `pat`; `none` when
`pat` never occurs. -/
def splitAtSub : List Char → List Char → Option (List Char × List Char)
  | cs, pat =>
      if pat.isPrefixOf cs then some ([], cs.drop pat.length)
      else match cs with
        | [] => none
        | c :: cs' =>
            match splitAtSub cs' pat with
            | some (pre, post) => some (c :: pre, post)
            | none => none

/-- Drop everything up to and including the last `'@'` (userinfo). -/
def afterLastAt (cs : List Char) : List Char :=
  (cs.reverse.takeWhile (fun c => c ≠ '@')).reverse

/-- Embedding of `new URL(url).hostname` for `scheme://[user@]host[:port]…`
URLs: the hostname is the lower-cased authority segment before any port,
path, query or fragment.  Strings with no `://` or an empty host model the
`URL` constructor throwing. -/
def urlHostname (url : String) : Option String :=
  match splitAtSub url.toList "://".toList with
  | none => none
  | some (scheme, rest) =>
      if scheme.isEmpty then none
      else
        let hostPort := rest.takeWhile (fun c => c ≠ '/' && c ≠ '?' && c ≠ '#')
        let host := (afterLastAt hostPort).takeWhile (fun c => c ≠ ':')
        if host.isEmpty then none else some (strLower (String.mk host))

-- ==========================================================================
-- PolicyEngine.allows and its two helpers (src/policy/engine.ts)
-- ==========================================================================

/-- JavaScript truthiness of the optional `action.target` string. -/
def targetTruthy (a : BrowserAction) : Bool :=
  match a.target with
  | some t => if t = "" then false else true
  | none => false

def defaultAllowDecision : PolicyDecision :=
  { allowed := true, effect := PolicyEffect.allow }

/-- `PolicyEngine.checkSecurityRules`. -/
def intentTaskIsLogin : Option BrowsingIntent → Bool
  | some i => if i.taskType = TaskType.login then true else false
  | none => false

def checkSecurityRules (intent : Option BrowsingIntent) (action : BrowserAction)
    (ctx : ExecutionContext) : PolicyDecision :=
  if targetTruthy action && testExecutable (action.target.getD "") then
    { allowed := false, effect := PolicyEffect.deny,
      matchedRule := STATIC_POLICIES.find? (fun r => r.id = "static:no-executable-download"),
      reason := some "Executable download blocked" }
  else if (if action.description = "" then false else true) && testPayment action.description then
    { allowed := false, effect := PolicyEffect.deny,
      matchedRule := STATIC_POLICIES.find? (fun r => r.id = "static:no-auto-payment"),
      reason := some "Payment action requires user confirmation" }
  else if intentTaskIsLogin intent && ! strStartsWith ctx.currentUrl "https://" then
    { allowed := false, effect := PolicyEffect.deny,
      matchedRule := STATIC_POLICIES.find? (fun r => r.id = "static:https-only-credentials"),
      reason := some "Credentials cannot be entered on non-HTTPS sites" }
  else defaultAllowDecision

/-- `PolicyEngine.checkDomainAllowed`. -/
def checkDomainAllowed (intent : Option BrowsingIntent) (url : String) : PolicyDecision :=
  match intent with
  | none => defaultAllowDecision
  | some i =>
      match urlHostname url with
      | none =>
          { allowed := false, effect := PolicyEffect.deny,
            reason := some ("Invalid URL: " ++ url) }
      | some domain =>
          if isMaliciousDomain domain then
            { allowed := false, effect := PolicyEffect.deny,
              reason := some ("Navigation to malicious domain blocked: " ++ domain) }
          else if i.allowedDomains.any (fun d => domain = d || strEndsWith domain ("." ++ d)) then
            defaultAllowDecision
          else
            { allowed := false, effect := PolicyEffect.deny,
              reason := some ("Domain not in allowlist: " ++ domain) }

/-- `PolicyEngine.allows`, with the engine's optional intent made explicit
(the only constructor-supplied state `allows` reads). -/
def allows (intent : Option BrowsingIntent) (action : BrowserAction)
    (ctx : ExecutionContext) : PolicyDecision :=
  let securityCheck := checkSecurityRules intent action ctx
  let actionStep : PolicyDecision :=
    match intent with
    | some i =>
        if i.allowedActions.contains action.actionType then defaultAllowDecision
        else
          { allowed := false, effect := PolicyEffect.deny,
            reason := some "Action not allowed for this task" }
    | none => defaultAllowDecision
  if securityCheck.allowed = false then securityCheck
  else if (if action.actionType = ActionType.navigate then true else false) && targetTruthy action then
    let domainCheck := checkDomainAllowed intent (action.target.getD "")
    if domainCheck.allowed = false then domainCheck else actionStep
  else actionStep

-- ==========================================================================
-- Task parser (src/core/task-parser.ts)
-- ==========================================================================

/-- Character class of the captured host group in the explicit-URL pattern. -/
def isHostChar (c : Char) : Bool :=
  c.isAlphanum || c = '.' || c = '-'

/-- One attempt of the global pattern matching `http(s)://host` at the head
of `cs`; on success returns the captured host and the total number of
characters the match consumed. -/
def tryUrlAt (cs : List Char) : Option (String × Nat) :=
  if "http".toList.isPrefixOf cs then
    let rest1 := cs.drop 4
    let sLen := match rest1 with
      | 's' :: _ => 1
      | _ => 0
    let rest2 := rest1.drop sLen
    if "://".toList.isPrefixOf rest2 then
      let hostRun := (rest2.drop 3).takeWhile isHostChar
      if hostRun.isEmpty then none
      else some (String.mk hostRun, 4 + sLen + 3 + hostRun.length)
    else none
  else none

/-- All hosts found by repeatedly applying the explicit-URL pattern,
resuming after each match as a global regex does.  `fuel` only makes the
recursion structural: each step consumes at least one character, and the
caller supplies the input length. -/
def scanUrlHosts : Nat → List Char → List String
  | 0, _ => []
  | Nat.succ _, [] => []
  | Nat.succ f, c :: cs =>
      match tryUrlAt (c :: cs) with
      | some (host, k) => host :: scanUrlHosts f (cs.drop (k - 1))
      | none => scanUrlHosts f cs

/-- The TLD alternation of the bare-domain pattern, in source order. -/
def DOMAIN_TLDS : List String :=
  ["com", "org", "net", "io", "ai", "co", "edu", "gov"]

/-- Character class of a bare-domain name segment. -/
def isSegChar (c : Char) : Bool :=
  c.isAlphanum || c = '-'

/-- One attempt of the bare-domain pattern at the head of `cs` given the
preceding character: a word boundary, a maximal segment run, a dot, the
first TLD alternative that fits, and a trailing word boundary.  Returns
the matched domain and the number of characters consumed. -/
def tryDomainAt (prev : Option Char) (cs : List Char) : Option (String × Nat) :=
  if boundaryAt prev cs then
    let seg := cs.takeWhile isSegChar
    if seg.isEmpty then none
    else
      match cs.drop seg.length with
      | '.' :: rest2 =>
          match DOMAIN_TLDS.find? (fun t =>
              t.toList.isPrefixOf rest2 && ! headIsWord (rest2.drop t.length)) with
          | some t => some (String.mk seg ++ "." ++ t, seg.length + 1 + t.length)
          | none => none
      | _ => none
  else none

/-- All bare-domain mentions, scanned left to right, resuming after each
match (the resumed left context is the last matched character).  `fuel`
only makes the recursion structural, as in `scanUrlHosts`. -/
def scanDomains : Nat → Option Char → List Char → List String
  | 0, _, _ => []
  | Nat.succ _, _, [] => []
  | Nat.succ f, prev, c :: cs =>
      match tryDomainAt prev (c :: cs) with
      | some (dom, k) =>
          dom :: scanDomains f (((c :: cs).take k).getLastD c) (cs.drop (k - 1))
      | none => scanDomains f (some c) cs

/-- Insertion-ordered set insertion (JavaScript `Set.prototype.add`). -/
def addUnique (l : List String) (x : String) : List String :=
  if l.contains x then l else l ++ [x]

def addAllUnique (l : List String) (xs : List String) : List String :=
  xs.foldl addUnique l

/-- `extractDomains(request, extraDomains)`. -/
def extractDomains (request : String) (extraDomains : Option (List String)) : List String :=
  let s0 := (extraDomains.getD []).foldl addUnique []
  let s1 := addAllUnique s0 (scanUrlHosts request.toList.length request.toList)
  let s2 := addAllUnique s1 (scanDomains request.toList.length none request.toList)
  let s3 := s2.foldl (fun acc domain =>
      let acc1 := if strStartsWith domain "www." then acc else addUnique acc ("www." ++ domain)
      if containsSub domain "github.com" then
        addUnique (addUnique acc1 "raw.githubusercontent.com") "api.github.com"
      else acc1) s2
  if s3.isEmpty then ["www.google.com", "google.com"] else s3

def wordAlt (w : String) : List RTok :=
  [RTok.bnd, RTok.lit w, RTok.bnd]

def isSpaceChar (c : Char) : Bool := c = ' '

/-- TASK_PATTERNS with their task types, in source order; all patterns are
case-insensitive, so they are matched against the lower-cased request. -/
def TASK_PATTERNS : List (List (List RTok) × TaskType) :=
  [ ([wordAlt "search", wordAlt "find", wordAlt "look up", wordAlt "lookup",
      wordAlt "google"], TaskType.search),
    ([wordAlt "price", wordAlt "cost", wordAlt "buy", wordAlt "purchase",
      wordAlt "order"], TaskType.purchase),
    ([wordAlt "extract", wordAlt "scrape", wordAlt "get the", wordAlt "grab",
      wordAlt "pull"], TaskType.extract),
    ([[RTok.bnd, RTok.lit "log", RTok.opt isSpaceChar, RTok.lit "in", RTok.bnd],
      [RTok.bnd, RTok.lit "sign", RTok.opt isSpaceChar, RTok.lit "in", RTok.bnd],
      wordAlt "authenticate"], TaskType.login),
    ([wordAlt "check", wordAlt "monitor", wordAlt "watch", wordAlt "track"],
      TaskType.monitor),
    ([wordAlt "click", wordAlt "fill", wordAlt "submit", wordAlt "interact"],
      TaskType.interact) ]

/-- `inferTaskType`: first matching pattern wins; default `extract`. -/
def inferTaskType (request : String) : TaskType :=
  match TASK_PATTERNS.find? (fun pt => rTest pt.1 (strLower request)) with
  | some pt => pt.2
  | none => TaskType.extract

/-- TASK_ACTIONS table. -/
def TASK_ACTIONS : TaskType → List ActionType
  | TaskType.search =>
      [ActionType.navigate, ActionType.typeText, ActionType.click, ActionType.scroll,
       ActionType.extract]
  | TaskType.extract =>
      [ActionType.navigate, ActionType.scroll, ActionType.extract, ActionType.screenshot]
  | TaskType.monitor =>
      [ActionType.navigate, ActionType.scroll, ActionType.extract, ActionType.screenshot,
       ActionType.wait]
  | TaskType.interact =>
      [ActionType.navigate, ActionType.click, ActionType.scroll, ActionType.typeText,
       ActionType.extract]
  | TaskType.purchase =>
      [ActionType.navigate, ActionType.click, ActionType.scroll, ActionType.typeText,
       ActionType.extract]
  | TaskType.login =>
      [ActionType.navigate, ActionType.click, ActionType.typeText]

/-- TASK_CONSTRAINTS table: (maxDepth, timeout). -/
def TASK_CONSTRAINTS : TaskType → Nat × Nat
  | TaskType.search => (3, 30000)
  | TaskType.extract => (5, 60000)
  | TaskType.monitor => (2, 120000)
  | TaskType.interact => (5, 60000)
  | TaskType.purchase => (10, 180000)
  | TaskType.login => (3, 30000)

def isDigitChar (c : Char) : Bool := c.isDigit

def isEmailLocalChar (c : Char) : Bool :=
  c.isAlphanum || c = '.' || c = '_' || c = '%' || c = '+' || c = '-'

def isEmailDomChar (c : Char) : Bool :=
  c.isAlphanum || c = '.' || c = '-'

/-- The final class of the email pattern is written `[A-Z|a-z]` in the
source and therefore also matches a literal bar character. -/
def isLetterOrBar (c : Char) : Bool :=
  c.isAlpha || c = '|'

/-- The fixed sensitive-data detectors, in source order.  Each entry is
(alternative list, name, case-insensitive flag); case-insensitive patterns
run on the lower-cased request. -/
def SENSITIVE_PATTERNS : List (List (List RTok) × String × Bool) :=
  [ ([[RTok.bnd, RTok.clsN isDigitChar 3, RTok.lit "-", RTok.clsN isDigitChar 2,
       RTok.lit "-", RTok.clsN isDigitChar 4, RTok.bnd]], "SSN", false),
    ([[RTok.bnd, RTok.clsN isDigitChar 16, RTok.bnd]], "credit_card", false),
    ([[RTok.bnd, RTok.cls isEmailLocalChar, RTok.lit "@", RTok.cls isEmailDomChar,
       RTok.lit ".", RTok.clsN isLetterOrBar 2, RTok.star isLetterOrBar, RTok.bnd]],
      "email", false),
    ([wordAlt "password"], "password", true),
    ([[RTok.bnd, RTok.lit "api", RTok.opt (fun c => c = '_' || c = '-'), RTok.lit "key",
       RTok.bnd]], "api_key", true),
    ([wordAlt "secret"], "secret", true) ]

/-- `detectSensitiveData` (the caller-supplied extra patterns of the source
are not modelled; every claim runs with none supplied). -/
def detectSensitiveData (request : String) : List String :=
  (SENSITIVE_PATTERNS.filter (fun p =>
      rTest p.1 (if p.2.2 then strLower request else request))).map (fun p => p.2.1)

/-- Collapse each whitespace run to a single space (`replace(/\s+/g, ' ')`). -/
def collapseWs (s : String) : String :=
  String.mk ((s.toList.foldl (fun (st : List Char × Bool) c =>
      if isWsChar c then
        if st.2 then st else (' ' :: st.1, true)
      else (c :: st.1, false)) ([], false)).1.reverse)

def trimSpaces (s : String) : String :=
  String.mk ((s.toList.dropWhile isWsChar).reverse.dropWhile isWsChar).reverse

/-- `summarizeGoal`. -/
def summarizeGoal (request : String) : String :=
  let cleaned := trimSpaces (collapseWs request)
  if cleaned.length ≤ 100 then cleaned
  else String.mk (cleaned.toList.take 97) ++ "..."

structure ParseOptions where
  extraDomains : Option (List String) := none
  maxDepth : Option Nat := none
  timeout : Option Nat := none
deriving Repr, DecidableEq

/-- `parseIntent`. -/
def parseIntent (request : String) (options : ParseOptions := {}) : BrowsingIntent :=
  let tt := inferTaskType request
  let constraints := TASK_CONSTRAINTS tt
  { goal := summarizeGoal request,
    taskType := tt,
    allowedDomains := extractDomains request options.extraDomains,
    allowedActions := TASK_ACTIONS tt,
    sensitiveData := detectSensitiveData request,
    maxDepth := options.maxDepth.getD constraints.1,
    timeout := options.timeout.getD constraints.2,
    originalRequest := request }

structure ValidationResult where
  valid : Bool
  issues : List String
deriving Repr, DecidableEq

/-- `validateIntent`. -/
def validateIntent (intent : BrowsingIntent) : ValidationResult :=
  let issues :=
    (if intent.taskType = TaskType.login ∧ intent.sensitiveData.contains "password" then
      ["Login task with password in request - credentials should not be in request text"]
     else []) ++
    (if intent.taskType = TaskType.purchase ∧ intent.sensitiveData.contains "credit_card" then
      ["Purchase task with credit card in request - payment info should not be in request text"]
     else []) ++
    (if intent.allowedDomains.length = 0 then
      ["No domains specified - cannot execute without domain allowlist"]
     else []) ++
    (intent.allowedDomains.filter (fun d => d.length < 4 || d = "*")).map
      (fun d => "Domain too broad: " ++ d) ++
    (if intent.timeout > 300000 then
      ["Timeout exceeds 5 minutes - consider breaking into smaller tasks"]
     else [])
  { valid := issues.length = 0, issues := issues }

-- ==========================================================================
-- JSON values (shared by the HTTP filter and the bulk-action codec)
-- ==========================================================================

inductive Json where
  | null
  | bool (b : Bool)
  | num (n : Int)
  | str (s : String)
  | arr (elems : List Json)
  | obj (fields : List (String × Json))
deriving Repr

mutual

def jsonEq : Json → Json → Bool
  | Json.null, Json.null => true
  | Json.bool a, Json.bool b => a = b
  | Json.num a, Json.num b => a = b
  | Json.str a, Json.str b => a = b
  | Json.arr a, Json.arr b => jsonListEq a b
  | Json.obj a, Json.obj b => jsonObjEq a b
  | _, _ => false

def jsonListEq : List Json → List Json → Bool
  | [], [] => true
  | a :: as', b :: bs => jsonEq a b && jsonListEq as' bs
  | _, _ => false

def jsonObjEq : List (String × Json) → List (String × Json) → Bool
  | [], [] => true
  | (ka, va) :: as', (kb, vb) :: bs =>
      (if ka = kb then true else false) && jsonEq va vb && jsonObjEq as' bs
  | _, _ => false

end

/-- JavaScript `Map.prototype.get` over an insertion-ordered entry list. -/
def lookupAssoc {κ α : Type} [DecidableEq κ] (l : List (κ × α)) (k : κ) : Option α :=
  (l.find? (fun p => p.1 = k)).map (fun p => p.2)

/-- JavaScript `Map.prototype.set`: overwrite in place or append. -/
def setAssoc {κ α : Type} [DecidableEq κ] (l : List (κ × α)) (k : κ) (v : α) :
    List (κ × α) :=
  if l.any (fun p => p.1 = k) then
    l.map (fun p => if p.1 = k then (k, v) else p)
  else l ++ [(k, v)]

-- ==========================================================================
-- HTTP filter (src/policy/http-filter.ts)
-- ==========================================================================

inductive FilterAction where
  | allow | deny | allowPublic
deriving Repr, DecidableEq

/-- Sitemap entry; the `children` and `example_urls` documentation fields of
the source are never read by the filter and are omitted. -/
structure SitemapEntry where
  category : String
  semantic_action : String
  url : String
  method : String
  body : List (String × Json)
  regex : Option String := none
  resource_types : Option (List String) := none
  priority : Nat
deriving Repr

structure AllowedRequest where
  url : String
  method : Option String := none
deriving Repr, DecidableEq

/-- Site policy; `defaultAction` embeds the source field `default`. -/
structure SitePolicy where
  name : String
  description : String
  defaultAction : FilterAction
  domains : List String
  allowed_domains : List String
  allowed_requests : List AllowedRequest
  rules : List String
deriving Repr

structure HttpPolicyRule where
  effect : FilterAction
  action : List String
  sensitive : Bool
  description : String
deriving Repr

/-- HTTP request; a string body is modelled as already parsed by the
source's `parseBody` (JSON first, URL-encoded second), so `body` holds the
parsed value. -/
structure HttpRequest where
  url : String
  method : String
  body : Option Json := none
  headers : List (String × String) := []
  resourceType : Option String := none
deriving Repr

structure FilterDecision where
  allowed : Bool
  action : FilterAction
  reason : String
  matchedEntry : Option SitemapEntry := none
  matchedRule : Option HttpPolicyRule := none
  stripCookies : Option Bool := none
deriving Repr

structure HttpFilter where
  sitemaps : List (String × List SitemapEntry) := []
  policies : List (String × SitePolicy) := []
  rules : List (String × List HttpPolicyRule) := []
  predictedAllowlist : List String := []
  predictedAllowlistActive : Bool := false
deriving Repr

/-- `extractHostname`: hostname of the URL, empty string when parsing fails. -/
def extractHostname (url : String) : String :=
  (urlHostname url).getD ""

def domainMatches (policyDomain hostname : String) : Bool :=
  if policyDomain = "" || hostname = "" then false
  else if policyDomain = hostname then true
  else strEndsWith hostname ("." ++ policyDomain)

def findPolicy (f : HttpFilter) (hostname : String) : Option SitePolicy :=
  (f.policies.find? (fun p => domainMatches p.1 hostname)).map (fun p => p.2)

def findSitemap (f : HttpFilter) (hostname : String) : Option (List SitemapEntry) :=
  (f.sitemaps.find? (fun p => domainMatches p.1 hostname)).map (fun p => p.2)

def policyAllowsDomain (f : HttpFilter) (currentDomain : Option String)
    (destHost : String) : Bool :=
  let cd := currentDomain.getD ""
  if cd = "" then false
  else
    match findPolicy f cd with
    | none => false
    | some policy => policy.allowed_domains.any (fun ad => domainMatches ad destHost)

-- URL pattern compilation: after the source escapes regex metacharacters,
-- `{ident}` becomes `([^/]+)` and `*` becomes `.*`, anchored at both ends;
-- everything else is literal.

inductive UrlTok where
  | lit (c : Char)
  | param
  | star
deriving Repr, DecidableEq

def isIdentStart (c : Char) : Bool := c.isAlpha || c = '_'
def isIdentChar (c : Char) : Bool := c.isAlphanum || c = '_'

def compileChars : List Char → List UrlTok
  | [] => []
  | '*' :: cs => UrlTok.star :: compileChars cs
  | '{' :: cs =>
      (match hm : cs with
       | c :: cs' =>
           if isIdentStart c then
             (match hr : cs'.drop (cs'.takeWhile isIdentChar).length with
              | '}' :: cs'' => UrlTok.param :: compileChars cs''
              | _ => UrlTok.lit '{' :: compileChars cs)
           else UrlTok.lit '{' :: compileChars cs
       | [] => [UrlTok.lit '{'])
  | c :: cs => UrlTok.lit c :: compileChars cs
termination_by cs => cs.length
decreasing_by
  all_goals simp_wf
  all_goals try
    (have h1 := congrArg List.length hr
     rw [List.length_drop] at h1
     subst hm
     simp at h1 ⊢
     omega)
  all_goals (subst hm; simp; try omega)

def compilePattern (pattern : String) : List UrlTok :=
  compileChars pattern.toList

/-- Anchored match of a compiled URL pattern. -/
def urlTokMatch : List UrlTok → List Char → Bool
  | [], [] => true
  | [], _ :: _ => false
  | UrlTok.lit c :: ts, ds =>
      (match ds with
       | d :: ds' => c = d && urlTokMatch ts ds'
       | [] => false)
  | UrlTok.star :: ts, ds =>
      urlTokMatch ts ds ||
      (match ds with
       | _ :: ds' => urlTokMatch (UrlTok.star :: ts) ds'
       | [] => false)
  | UrlTok.param :: ts, ds =>
      (match ds with
       | d :: ds' => d ≠ '/' && (urlTokMatch ts ds' || urlTokMatch (UrlTok.param :: ts) ds')
       | [] => false)
termination_by ts ds => ds.length + ts.length
decreasing_by
  all_goals simp_wf
  all_goals omega

/-- `bodyContains`: every key of the pattern must appear in the target with
an equal value; object values recurse as subtree containment.  (The source
funnels array values through `Object.entries` as index-keyed objects; array
values compare element-wise here, and no sitemap in the repository uses
array-valued body patterns.) -/
def bodyContains : List (String × Json) → List (String × Json) → Bool
  | [], _ => true
  | (k, Json.obj pe) :: rest, target =>
      (match lookupAssoc target k with
       | some (Json.obj te) => bodyContains pe te
       | _ => false) && bodyContains rest target
  | (k, v) :: rest, target =>
      (match lookupAssoc target k with
       | some tv => jsonEq v tv
       | none => false) && bodyContains rest target

def entryPattern (entry : SitemapEntry) : String :=
  match entry.regex with
  | some r => if r = "" then entry.url else r
  | none => entry.url

/-- `matchRequest`: first sitemap entry (the stored list is already sorted
by priority) matching method, URL pattern, body pattern and resource type. -/
def matchRequest (request : HttpRequest) (sitemap : List SitemapEntry) :
    Option SitemapEntry :=
  let method := strUpper request.method
  let bodyObj : Option (List (String × Json)) :=
    match request.body with
    | some (Json.obj t) => some t
    | _ => none
  sitemap.find? (fun entry =>
    (entry.method = "" || entry.method = method) &&
    urlTokMatch (compilePattern (entryPattern entry)) request.url.toList &&
    (entry.body.isEmpty ||
      (match bodyObj with
       | some t => bodyContains entry.body t
       | none => false)) &&
    (match entry.resource_types with
     | some rts =>
         if rts.isEmpty then true
         else
           (match request.resourceType with
            | some rt => rts.contains rt
            | none => false)
     | none => true))

def findMatchingRule (semanticAls : String) (rules : List HttpPolicyRule) :
    Option HttpPolicyRule :=
  rules.find? (fun r => r.action.contains semanticAls)

def sitemapDefaultDecision (policy : SitePolicy) (entry : Option SitemapEntry) :
    FilterDecision :=
  { allowed := policy.defaultAction ≠ FilterAction.deny,
    action := policy.defaultAction,
    reason := "Default policy",
    matchedEntry := entry,
    stripCookies := some (policy.defaultAction = FilterAction.allowPublic) }

/-- Layers 3 to 6 of `HttpFilter.filter`, once a governing policy is known. -/
def filterWithPolicy (f : HttpFilter) (request : HttpRequest)
    (currentDomain : Option String) (destHost : String) (policy : SitePolicy) :
    FilterDecision :=
  let method := strUpper request.method
  let sitemap :=
    match findSitemap f destHost with
    | some s => some s
    | none => findSitemap f (currentDomain.getD "")
  let sitemapStep : Option FilterDecision :=
    match sitemap with
    | some sm =>
        (match matchRequest request sm with
         | some entry =>
             let rules :=
               match policy.domains.head? with
               | some d0 => (lookupAssoc f.rules d0).getD []
               | none => []
             (match findMatchingRule entry.semantic_action rules with
              | some rule =>
                  some { allowed := rule.effect ≠ FilterAction.deny,
                         action := rule.effect,
                         reason := rule.description,
                         matchedEntry := some entry,
                         matchedRule := some rule,
                         stripCookies := some (rule.effect = FilterAction.allowPublic) }
              | none => some (sitemapDefaultDecision policy (some entry)))
         | none => none)
    | none => none
  match sitemapStep with
  | some d => d
  | none =>
      if policy.allowed_requests.any (fun ar =>
          strStartsWith request.url ar.url &&
          (match ar.method with
           | none => true
           | some m => if m = "" then true else m = method)) then
        { allowed := true, action := FilterAction.allow,
          reason := "Explicitly allowed request" }
      else sitemapDefaultDecision policy none

/-- `HttpFilter.filter`. -/
def filterHttpRequest (f : HttpFilter) (request : HttpRequest)
    (currentDomain : Option String := none) : FilterDecision :=
  let destHost := extractHostname request.url
  if f.predictedAllowlistActive &&
     ! f.predictedAllowlist.contains destHost &&
     ! policyAllowsDomain f currentDomain destHost then
    { allowed := false, action := FilterAction.deny,
      reason := "Domain not in predicted allowlist: " ++ destHost }
  else
    let destPolicy := findPolicy f destHost
    let currentPolicy :=
      match currentDomain with
      | some cd => findPolicy f cd
      | none => none
    match destPolicy with
    | some dp => filterWithPolicy f request currentDomain destHost dp
    | none =>
        match currentPolicy with
        | none =>
            { allowed := false, action := FilterAction.deny,
              reason := "No policy for domain and no current context: " ++ destHost }
        | some cp =>
            if ! policyAllowsDomain f currentDomain destHost then
              { allowed := false, action := FilterAction.deny,
                reason := "Domain not allowed by current policy: " ++ destHost }
            else filterWithPolicy f request currentDomain destHost cp

/-- `HttpFilter.predictAllowlistFromIntent`. -/
def predictAllowlistFromIntent (intent : BrowsingIntent) : List String :=
  intent.allowedDomains.foldl (fun acc domain =>
    let acc1 :=
      if containsSub domain "github.com" then
        addUnique (addUnique (addUnique acc "githubusercontent.com")
          "github.githubassets.com") "api.github.com"
      else acc
    if containsSub domain "gitlab.com" then
      addUnique (addUnique acc1 "gitlab.net") "gl-product-analytics.com"
    else acc1)
    (intent.allowedDomains.foldl addUnique [])

/-- `HttpFilter.setPredictedAllowlist` applied to a fresh state. -/
def setPredictedAllowlist (f : HttpFilter) (domains : List String)
    (active : Bool := true) : HttpFilter :=
  { f with predictedAllowlist := domains.foldl addUnique [],
           predictedAllowlistActive := active }

/-- `createFilterFromIntent`. -/
def createFilterFromIntent (intent : BrowsingIntent) : HttpFilter :=
  let allowlist := predictAllowlistFromIntent intent
  let f0 := setPredictedAllowlist {} allowlist true
  { f0 with policies := intent.allowedDomains.foldl (fun acc domain =>
      setAssoc acc domain
        { name := "auto_" ++ domain,
          description := "Auto-generated policy for " ++ domain,
          defaultAction :=
            if intent.taskType = TaskType.extract then FilterAction.allowPublic
            else FilterAction.allow,
          domains := [domain],
          allowed_domains := allowlist,
          allowed_requests := [],
          rules := [] }) [] }

-- ==========================================================================
-- Element reference system (src/executor/element-refs.ts)
-- ==========================================================================

structure ObservedElement where
  selector : String
  tagName : String
  text : Option String := none
  attributes : List (String × String) := []
  visible : Bool := true
deriving Repr, DecidableEq

structure SnapshotElement where
  ref : Nat
  selector : String
  tagName : String
  role : Option String := none
  label : Option String := none
  text : Option String := none
  attributes : List (String × String)
  identityHash : String
deriving Repr, DecidableEq

structure ElementSnapshot where
  version : Nat
  timestamp : Nat
  url : String
  elements : List (Nat × SnapshotElement)
deriving Repr, DecidableEq

structure ElementRefManager where
  currentVersion : Nat := 0
  snapshots : List (Nat × ElementSnapshot) := []
deriving Repr, DecidableEq

/-- `maxSnapshots` of the source, a fixed private field. -/
def maxSnapshots : Nat := 5

/-- JavaScript `a || b` on possibly-absent strings: `a` unless it is absent
or empty. -/
def jsOrStr : Option String → Option String → Option String
  | some s, b => if s = "" then b else some s
  | none, b => b

-- The identity hash: a signed 32-bit accumulator over UTF-16 code units
-- (these inputs are code points below 0x10000), printed in hexadecimal.

def toInt32 (n : Int) : Int :=
  ((n + 2 ^ 31) % 2 ^ 32) - 2 ^ 31

def hashStep (hash : Int) (c : Nat) : Int :=
  toInt32 (toInt32 (hash * 32) - hash + c)

def hashString (s : String) : Int :=
  s.toList.foldl (fun h c => hashStep h c.toNat) 0

def hexDigit (n : Nat) : Char :=
  if n < 10 then Char.ofNat (48 + n) else Char.ofNat (87 + n)

def natToHexAux : Nat → List Char → List Char
  | 0, acc => acc
  | Nat.succ n, acc =>
      natToHexAux ((Nat.succ n) / 16) (hexDigit ((Nat.succ n) % 16) :: acc)
decreasing_by
  exact Nat.div_lt_self (Nat.succ_pos n) (by omega)

def natToHex (n : Nat) : String :=
  if n = 0 then "0" else String.mk (natToHexAux n [])

/-- `Number.prototype.toString(16)` on a 32-bit signed value. -/
def intToHex (n : Int) : String :=
  if n < 0 then "-" ++ natToHex n.natAbs else natToHex n.toNat

/-- `computeIdentityHash`. -/
def computeIdentityHash (elem : ObservedElement) : String :=
  let identity := String.intercalate "|"
    [ elem.tagName,
      (lookupAssoc elem.attributes "role").getD "",
      (lookupAssoc elem.attributes "aria-label").getD "",
      (lookupAssoc elem.attributes "name").getD "",
      (lookupAssoc elem.attributes "id").getD "",
      (elem.text.map (fun t => String.mk (t.toList.take 100))).getD "" ]
  intToHex (hashString identity)

def mkSnapshotElement (ref : Nat) (elem : ObservedElement) : SnapshotElement :=
  { ref := ref,
    selector := elem.selector,
    tagName := elem.tagName,
    role := lookupAssoc elem.attributes "role",
    label := jsOrStr (lookupAssoc elem.attributes "aria-label") elem.text,
    text := elem.text,
    attributes := elem.attributes,
    identityHash := computeIdentityHash elem }

/-- The 1-indexed element map of a new snapshot, in input order. -/
def buildSnapshotElems (elements : List ObservedElement) : List (Nat × SnapshotElement) :=
  elements.enum.map (fun p => (p.1 + 1, mkSnapshotElement (p.1 + 1) p.2))

def minKey (l : List (Nat × ElementSnapshot)) : Nat :=
  match l.map Prod.fst with
  | [] => 0
  | k :: ks => ks.foldl Nat.min k

def deleteKey (l : List (Nat × ElementSnapshot)) (k : Nat) :
    List (Nat × ElementSnapshot) :=
  l.filter (fun p => p.1 ≠ k)

/-- `ElementRefManager.createSnapshot`; `now` stands for `Date.now()`. -/
def createSnapshot (m : ElementRefManager) (url : String)
    (elements : List ObservedElement) (now : Nat) :
    ElementRefManager × ElementSnapshot :=
  let v := m.currentVersion + 1
  let snap : ElementSnapshot :=
    { version := v, timestamp := now, url := url,
      elements := buildSnapshotElems elements }
  let snaps1 := setAssoc m.snapshots v snap
  let snaps2 := if snaps1.length > maxSnapshots then deleteKey snaps1 (minKey snaps1) else snaps1
  ({ currentVersion := v, snapshots := snaps2 }, snap)

def getCurrentVersion (m : ElementRefManager) : Nat :=
  m.currentVersion

def getCurrentSnapshot (m : ElementRefManager) : Option ElementSnapshot :=
  lookupAssoc m.snapshots m.currentVersion

structure VersionedRef where
  version : Nat
  ref : Nat
deriving Repr, DecidableEq

def isDigitsNonempty (cs : List Char) : Bool :=
  !cs.isEmpty && cs.all Char.isDigit

def digitsToNat (cs : List Char) : Nat :=
  cs.foldl (fun n c => n * 10 + (c.toNat - 48)) 0

/-- `parseRef`: the anchored pattern digits-colon-digits. -/
def parseRef (s : String) : Option VersionedRef :=
  match splitAtSub s.toList [':'] with
  | some (l, r) =>
      if isDigitsNonempty l && isDigitsNonempty r then
        some { version := digitsToNat l, ref := digitsToNat r }
      else none
  | none => none

structure RefValidation where
  valid : Bool
  element : Option SnapshotElement := none
  error : Option String := none
deriving Repr, DecidableEq

/-- `ElementRefManager.validateRef`. -/
def validateRef (m : ElementRefManager) (refString : String) : RefValidation :=
  match parseRef refString with
  | none =>
      { valid := false, error := some ("Invalid ref format: " ++ refString) }
  | some parsed =>
      if parsed.version ≠ m.currentVersion then
        { valid := false,
          error := some ("Stale ref: requested version " ++ toString parsed.version ++
            ", current is " ++ toString m.currentVersion ++ ". Page state may have changed.") }
      else
        match lookupAssoc m.snapshots parsed.version with
        | none =>
            { valid := false,
              error := some ("Snapshot " ++ toString parsed.version ++ " not found") }
        | some snapshot =>
            match lookupAssoc snapshot.elements parsed.ref with
            | none =>
                { valid := false,
                  error := some ("Element ref " ++ toString parsed.ref ++
                    " not found in snapshot " ++ toString parsed.version) }
            | some element => { valid := true, element := some element }

-- ==========================================================================
-- Bulk actions (src/executor/bulk-actions.ts)
-- ==========================================================================

/-- A bulk action.  `actionType` embeds the source field `type`; it is a
`String` because `parseBulkActions` admits any string there (the source
casts without checking the action alphabet), and `values` holds raw JSON
values for the same reason. -/
structure BulkAction where
  actionType : String
  ref : String
  text : Option String := none
  shouldClear : Option Bool := none
  values : Option (List Json) := none
  doubleClick : Option Bool := none
  rightClick : Option Bool := none
deriving Repr

structure BatchCheck where
  canBatch : Bool
  reason : Option String := none
deriving Repr, DecidableEq

def addUniqueNat (l : List Nat) (x : Nat) : List Nat :=
  if l.contains x then l else l ++ [x]

/-- `canBatchActions`. -/
def canBatchActions (actions : List BulkAction) : BatchCheck :=
  if actions.length = 0 then
    { canBatch := false, reason := some "No actions to batch" }
  else if actions.length = 1 then
    { canBatch := true }
  else if actions.any (fun a => a.actionType = "navigate") then
    { canBatch := false, reason := some "Cannot batch navigation actions" }
  else
    let versions := actions.foldl (fun acc a =>
      match parseRef a.ref with
      | some parsed => addUniqueNat acc parsed.version
      | none => acc) []
    if versions.length > 1 then
      { canBatch := false, reason := some "Actions reference different snapshot versions" }
    else { canBatch := true }

/-- `optimizeActionSequence`. -/
def optimizeActionSequence (actions : List BulkAction) : List (List BulkAction) :=
  let st := actions.foldl (fun (st : List (List BulkAction) × List BulkAction) action =>
      let testBatch := st.2 ++ [action]
      if (canBatchActions testBatch).canBatch then (st.1, testBatch)
      else if st.2.isEmpty then (st.1, [action])
      else (st.1 ++ [st.2], [action])) ([], [])
  if st.2.isEmpty then st.1 else st.1 ++ [st.2]

def serializeBulkAction (a : BulkAction) : Json :=
  Json.obj
    ([("type", Json.str a.actionType), ("ref", Json.str a.ref)] ++
     (match a.text with
      | some t => [("text", Json.str t)]
      | none => []) ++
     (match a.shouldClear with
      | some b => [("shouldClear", Json.bool b)]
      | none => []) ++
     (match a.values with
      | some vs => [("values", Json.arr vs)]
      | none => []) ++
     (match a.doubleClick with
      | some b => [("doubleClick", Json.bool b)]
      | none => []) ++
     (match a.rightClick with
      | some b => [("rightClick", Json.bool b)]
      | none => []))

/-- `serializeBulkActions`, at the JSON value level (`JSON.stringify` of
the value and `JSON.parse` of the text are mutually inverse). -/
def serializeBulkActions (actions : List BulkAction) : Json :=
  Json.obj [("bulkActions", Json.arr (actions.map serializeBulkAction))]

/-- String-keyed field lookup as JavaScript property access: arrays have
no string-named own properties of interest, objects use their fields. -/
def itemFields : Json → Option (List (String × Json))
  | Json.obj fields => some fields
  | Json.arr _ => some []
  | _ => none

def parseOneBulkAction (i : Nat) (item : Json) : Except String BulkAction :=
  match itemFields item with
  | none => Except.error ("Action at index " ++ toString i ++ " is not an object")
  | some fields =>
      match lookupAssoc fields "type" with
      | some (Json.str ty) =>
          (match lookupAssoc fields "ref" with
           | some (Json.str ref) =>
               (match parseRef ref with
                | none =>
                    Except.error ("Action at index " ++ toString i ++
                      " has invalid ref format: " ++ ref)
                | some _ =>
                    Except.ok
                      { actionType := ty,
                        ref := ref,
                        text :=
                          match lookupAssoc fields "text" with
                          | some (Json.str t) => some t
                          | _ => none,
                        shouldClear :=
                          match lookupAssoc fields "shouldClear" with
                          | some (Json.bool b) => some b
                          | _ => none,
                        values :=
                          match lookupAssoc fields "values" with
                          | some (Json.arr vs) => some vs
                          | _ => none,
                        doubleClick :=
                          match lookupAssoc fields "doubleClick" with
                          | some (Json.bool b) => some b
                          | _ => none,
                        rightClick :=
                          match lookupAssoc fields "rightClick" with
                          | some (Json.bool b) => some b
                          | _ => none })
           | _ => Except.error ("Action at index " ++ toString i ++ " missing ref"))
      | _ => Except.error ("Action at index " ++ toString i ++ " missing type")

def parseBulkItems (i : Nat) : List Json → Except String (List BulkAction)
  | [] => Except.ok []
  | item :: rest =>
      match parseOneBulkAction i item with
      | Except.error e => Except.error e
      | Except.ok a =>
          match parseBulkItems (i + 1) rest with
          | Except.error e => Except.error e
          | Except.ok as' => Except.ok (a :: as')

/-- `parseBulkActions`, at the JSON value level. -/
def parseBulkActions (json : Json) : Except String (List BulkAction) :=
  match itemFields json with
  | none => Except.error "Expected object with bulkActions array"
  | some fields =>
      let actionsArray :=
        match lookupAssoc fields "bulkActions" with
        | some Json.null => lookupAssoc fields "actions"
        | some v => some v
        | none => lookupAssoc fields "actions"
      match actionsArray with
      | some (Json.arr items) => parseBulkItems 0 items
      | _ => Except.error "Expected bulkActions to be an array"

-- ==========================================================================
-- Execution DAG model (src/core/types.ts) and builder (src/planner/dag-builder.ts)
-- ==========================================================================

inductive OutcomeType where
  | url_pattern | element_present | element_absent | content_match
deriving Repr, DecidableEq

structure ExpectedOutcome where
  outcomeType : OutcomeType
  value : String
  required : Bool
deriving Repr, DecidableEq

inductive ConstraintType where
  | domain | action | content | timing
deriving Repr, DecidableEq

structure Constraint where
  constraintType : ConstraintType
  rule : String
  errorMessage : String
deriving Repr, DecidableEq

inductive TargetType where
  | text | attribute | html
deriving Repr, DecidableEq

/-- Extraction target; `attr` embeds the source field `attribute`. -/
structure ExtractionTarget where
  name : String
  selector : String
  targetType : TargetType
  attr : Option String := none
deriving Repr, DecidableEq

inductive ConditionType where
  | element_present | element_absent | url_match | content_match | default
deriving Repr, DecidableEq

structure BranchCondition where
  condType : ConditionType
  value : Option String := none
  description : String
deriving Repr, DecidableEq

/-- Conditional edge; `fromNode` and `toNode` embed the source fields
`from` and `to`. -/
structure ConditionalEdge where
  fromNode : String
  toNode : String
  condition : BranchCondition
  priority : Nat
deriving Repr, DecidableEq

inductive TerminalResult where
  | success | error | abort
deriving Repr, DecidableEq

structure ExecutionNode where
  id : String
  action : BrowserAction
  expectedOutcomes : List ExpectedOutcome
  extractionTargets : Option (List ExtractionTarget) := none
  constraints : List Constraint
  isTerminal : Bool
  terminalResult : Option TerminalResult := none
deriving Repr, DecidableEq

structure ExecutionDAG where
  id : String
  intent : BrowsingIntent
  nodes : List ExecutionNode
  edges : List ConditionalEdge
  entryPoint : String
  createdAt : Nat
deriving Repr, DecidableEq

-- Template skeletons: `Partial<ExecutionNode>` and `Partial<ConditionalEdge>`.

structure TemplateNode where
  id : Option String := none
  action : Option BrowserAction := none
  expectedOutcomes : Option (List ExpectedOutcome) := none
  extractionTargets : Option (List ExtractionTarget) := none
  isTerminal : Option Bool := none
  terminalResult : Option TerminalResult := none
deriving Repr, DecidableEq

structure TemplateEdge where
  fromNode : Option String := none
  toNode : Option String := none
  condition : Option BranchCondition := none
  priority : Option Nat := none
deriving Repr, DecidableEq

structure PlanTemplate where
  nodes : List TemplateNode
  edges : List TemplateEdge
deriving Repr, DecidableEq

-- COMMON_BRANCHES used by the two templates.

def branchCaptcha : BranchCondition :=
  { condType := ConditionType.element_present,
    value := some "[class*=\x22captcha\x22], [id*=\x22captcha\x22], iframe[src*=\x22recaptcha\x22]",
    description := "Captcha detected" }

def branchPageNotFound : BranchCondition :=
  { condType := ConditionType.content_match,
    value := some "404|not found|page doesn't exist",
    description := "Page not found" }

def branchAccessDenied : BranchCondition :=
  { condType := ConditionType.content_match,
    value := some "403|access denied|forbidden|login required",
    description := "Access denied" }

def branchLoginRequired : BranchCondition :=
  { condType := ConditionType.element_present,
    value := some "input[type=\x22password\x22], [class*=\x22login\x22], [class*=\x22signin\x22]",
    description := "Login required" }

def branchCookieConsent : BranchCondition :=
  { condType := ConditionType.element_present,
    value := some "[class*=\x22cookie\x22], [class*=\x22consent\x22], [class*=\x22gdpr\x22]",
    description := "Cookie consent dialog" }

def SEARCH_TEMPLATE : PlanTemplate :=
  { nodes :=
      [ { id := some "navigate_search",
          action := some { actionType := ActionType.navigate,
                           description := "Navigate to search engine" },
          expectedOutcomes := some
            [{ outcomeType := OutcomeType.element_present,
               value := "input[type=\x22search\x22], input[name=\x22q\x22]", required := true }],
          isTerminal := some false },
        { id := some "enter_query",
          action := some { actionType := ActionType.typeText,
                           description := "Enter search query" },
          expectedOutcomes := some [],
          isTerminal := some false },
        { id := some "submit_search",
          action := some { actionType := ActionType.click,
                           description := "Submit search" },
          expectedOutcomes := some
            [{ outcomeType := OutcomeType.element_present,
               value := "[class*=\x22result\x22], [class*=\x22search\x22]", required := true }],
          isTerminal := some false },
        { id := some "extract_results",
          action := some { actionType := ActionType.extract,
                           description := "Extract search results" },
          expectedOutcomes := some [],
          extractionTargets := some
            [{ name := "results", selector := "[class*=\x22result\x22] a",
               targetType := TargetType.text }],
          isTerminal := some true,
          terminalResult := some TerminalResult.success },
        { id := some "error_captcha",
          action := some { actionType := ActionType.extract,
                           description := "Captcha detected - abort" },
          isTerminal := some true,
          terminalResult := some TerminalResult.abort },
        { id := some "error_no_results",
          action := some { actionType := ActionType.extract,
                           description := "No results found" },
          isTerminal := some true,
          terminalResult := some TerminalResult.error } ],
    edges :=
      [ { fromNode := some "navigate_search", toNode := some "enter_query",
          condition := some { condType := ConditionType.default,
                              description := "Search box found" },
          priority := some 10 },
        { fromNode := some "navigate_search", toNode := some "error_captcha",
          condition := some branchCaptcha, priority := some 1 },
        { fromNode := some "enter_query", toNode := some "submit_search",
          condition := some { condType := ConditionType.default,
                              description := "Query entered" },
          priority := some 10 },
        { fromNode := some "submit_search", toNode := some "extract_results",
          condition := some { condType := ConditionType.element_present,
                              value := some "[class*=\x22result\x22]",
                              description := "Results found" },
          priority := some 5 },
        { fromNode := some "submit_search", toNode := some "error_captcha",
          condition := some branchCaptcha, priority := some 1 },
        { fromNode := some "submit_search", toNode := some "error_no_results",
          condition := some { condType := ConditionType.content_match,
                              value := some "no results|nothing found",
                              description := "No results" },
          priority := some 3 } ] }

def EXTRACT_TEMPLATE : PlanTemplate :=
  { nodes :=
      [ { id := some "navigate_page",
          action := some { actionType := ActionType.navigate,
                           description := "Navigate to target page" },
          expectedOutcomes := some
            [{ outcomeType := OutcomeType.url_pattern, value := ".*", required := true }],
          isTerminal := some false },
        { id := some "dismiss_popups",
          action := some { actionType := ActionType.click,
                           description := "Dismiss cookie/popup dialogs" },
          expectedOutcomes := some [],
          isTerminal := some false },
        { id := some "scroll_page",
          action := some { actionType := ActionType.scroll,
                           description := "Scroll to load content" },
          expectedOutcomes := some [],
          isTerminal := some false },
        { id := some "extract_content",
          action := some { actionType := ActionType.extract,
                           description := "Extract target content" },
          expectedOutcomes := some [],
          isTerminal := some true,
          terminalResult := some TerminalResult.success },
        { id := some "error_not_found",
          action := some { actionType := ActionType.extract,
                           description := "Page not found" },
          isTerminal := some true,
          terminalResult := some TerminalResult.error },
        { id := some "error_access_denied",
          action := some { actionType := ActionType.extract,
                           description := "Access denied" },
          isTerminal := some true,
          terminalResult := some TerminalResult.error },
        { id := some "error_login_required",
          action := some { actionType := ActionType.extract,
                           description := "Login required - abort" },
          isTerminal := some true,
          terminalResult := some TerminalResult.abort } ],
    edges :=
      [ { fromNode := some "navigate_page", toNode := some "error_not_found",
          condition := some branchPageNotFound, priority := some 1 },
        { fromNode := some "navigate_page", toNode := some "error_access_denied",
          condition := some branchAccessDenied, priority := some 1 },
        { fromNode := some "navigate_page", toNode := some "error_login_required",
          condition := some branchLoginRequired, priority := some 2 },
        { fromNode := some "navigate_page", toNode := some "dismiss_popups",
          condition := some branchCookieConsent, priority := some 3 },
        { fromNode := some "navigate_page", toNode := some "scroll_page",
          condition := some { condType := ConditionType.default,
                              description := "Page loaded" },
          priority := some 10 },
        { fromNode := some "dismiss_popups", toNode := some "scroll_page",
          condition := some { condType := ConditionType.default,
                              description := "Popup dismissed" },
          priority := some 10 },
        { fromNode := some "scroll_page", toNode := some "extract_content",
          condition := some { condType := ConditionType.default,
                              description := "Content visible" },
          priority := some 10 } ] }

structure DAGBuilderOptions where
  extractionTargets : Option (List ExtractionTarget) := none
  additionalOutcomes : Option (List ExpectedOutcome) := none
  constraints : Option (List Constraint) := none
deriving Repr, DecidableEq

/-- `selectTemplate`: search has its own template, everything else uses the
extract template (the switch's default arm). -/
def selectTemplate : TaskType → PlanTemplate
  | TaskType.search => SEARCH_TEMPLATE
  | _ => EXTRACT_TEMPLATE

/-- `instantiateNodes`. -/
def instantiateNodes (templates : List TemplateNode) (intent : BrowsingIntent)
    (options : DAGBuilderOptions) : List ExecutionNode :=
  templates.enum.map (fun p =>
    let index := p.1
    let template := p.2
    let node0 : ExecutionNode :=
      { id := template.id.getD ("node_" ++ toString index),
        action := template.action.getD
          { actionType := ActionType.extract, description := "Unknown action" },
        expectedOutcomes := template.expectedOutcomes.getD [],
        extractionTargets := template.extractionTargets,
        constraints := options.constraints.getD [],
        isTerminal := template.isTerminal.getD false,
        terminalResult := template.terminalResult }
    let node1 :=
      match options.extractionTargets with
      | some ets =>
          if node0.action.actionType = ActionType.extract then
            { node0 with extractionTargets := some ((node0.extractionTargets.getD []) ++ ets) }
          else node0
      | none => node0
    let node2 :=
      match options.additionalOutcomes with
      | some outs => { node1 with expectedOutcomes := node1.expectedOutcomes ++ outs }
      | none => node1
    if node2.action.actionType = ActionType.navigate && ! targetTruthy node2.action then
      { node2 with action := { node2.action with
          target := some ("https://" ++ intent.allowedDomains.headD "undefined") } }
    else node2)

/-- `instantiateEdges`. -/
def instantiateEdges (templates : List TemplateEdge) : List ConditionalEdge :=
  templates.enum.map (fun p =>
    { fromNode := p.2.fromNode.getD "",
      toNode := p.2.toNode.getD "",
      condition := p.2.condition.getD
        { condType := ConditionType.default, description := "Default" },
      priority := p.2.priority.getD p.1 })

/-- `buildDAG`; `idStr` and `now` stand for the generated
`dag_<timestamp>_<random>` identifier and `Date.now()`. -/
def buildDAG (intent : BrowsingIntent) (options : DAGBuilderOptions)
    (idStr : String) (now : Nat) : ExecutionDAG :=
  let template := selectTemplate intent.taskType
  let nodes0 := instantiateNodes template.nodes intent options
  let domainConstraint : Constraint :=
    { constraintType := ConstraintType.domain,
      rule := String.intercalate "|" intent.allowedDomains,
      errorMessage := "Navigation outside allowed domains: " ++
        String.intercalate ", " intent.allowedDomains }
  let nodes := nodes0.map (fun n => { n with constraints := n.constraints ++ [domainConstraint] })
  let entryPoint :=
    match nodes.find? (fun n => ! strStartsWith n.id "error_") with
    | some n => n.id
    | none => ((nodes.head?).map (fun n => n.id)).getD ""
  { id := idStr, intent := intent, nodes := nodes,
    edges := instantiateEdges template.edges,
    entryPoint := entryPoint, createdAt := now }

/-- One pass of the reachability loop: add the target of every edge whose
source is already reachable, scanning edges in order against the growing
set, exactly as the source's inner `for` loop does. -/
def reachStep (edges : List ConditionalEdge) (reachable : List String) : List String :=
  edges.foldl (fun acc e =>
    if acc.contains e.fromNode && ! acc.contains e.toNode then acc ++ [e.toNode]
    else acc) reachable

/-- The `while (changed)` loop.  Each productive pass adds at least one
node and at most `edges.length` nodes can ever be added, so
`edges.length + 1` passes reproduce the loop exactly. -/
def reachIter : Nat → List ConditionalEdge → List String → List String
  | 0, _, r => r
  | Nat.succ fuel, edges, r =>
      let r' := reachStep edges r
      if r'.length = r.length then r else reachIter fuel edges r'

/-- `validateDAG`. -/
def validateDAG (dag : ExecutionDAG) : ValidationResult :=
  let nodeIds := dag.nodes.foldl (fun acc n => addUnique acc n.id) []
  let issues1 :=
    if nodeIds.contains dag.entryPoint then []
    else ["Entry point does not exist in nodes: " ++ dag.entryPoint]
  let issues2 := dag.edges.foldl (fun acc e =>
      let acc1 :=
        if nodeIds.contains e.fromNode then acc
        else acc ++ ["Edge references non-existent source node: " ++ e.fromNode]
      if nodeIds.contains e.toNode then acc1
      else acc1 ++ ["Edge references non-existent target node: " ++ e.toNode]) issues1
  let issues3 := dag.nodes.foldl (fun acc n =>
      if ! n.isTerminal && ! dag.edges.any (fun e => e.fromNode = n.id) then
        acc ++ ["Non-terminal node has no outgoing edges: " ++ n.id]
      else acc) issues2
  let issues4 :=
    if (dag.nodes.filter (fun n => n.isTerminal)).length = 0 then
      issues3 ++ ["DAG has no terminal nodes"]
    else issues3
  let reachable := reachIter (dag.edges.length + 1) dag.edges [dag.entryPoint]
  let issues5 := dag.nodes.foldl (fun acc n =>
      if reachable.contains n.id then acc
      else acc ++ ["Node is unreachable from entry point: " ++ n.id]) issues4
  { valid := issues5.length = 0, issues := issues5 }

-- ==========================================================================
-- Derived definitions used by the theorems
-- ==========================================================================

/-- One `createSnapshot` input: page url, observed elements, timestamp. -/
abbrev SnapInput : Type := String × List ObservedElement × Nat

/-- Run a sequence of `createSnapshot` calls from a given manager state. -/
def runSnapshots (m : ElementRefManager) (inputs : List SnapInput) : ElementRefManager :=
  inputs.foldl (fun st inp => (createSnapshot st inp.1 inp.2.1 inp.2.2).1) m

/-- The versions retained after `n` snapshots: the last `min n 5` versions,
ending at `n` (that is, `max 1 (n-4)` through `n`). -/
def versWindow (n : Nat) : List Nat :=
  (List.range (min n 5)).map (fun i => n - min n 5 + 1 + i)

/-- The snapshot the `v`-th `createSnapshot` call builds from its input. -/
def expectedSnap (inputs : List SnapInput) (v : Nat) : ElementSnapshot :=
  match inputs.get? (v - 1) with
  | some inp =>
      { version := v, timestamp := inp.2.2, url := inp.1,
        elements := buildSnapshotElems inp.2.1 }
  | none => { version := 0, timestamp := 0, url := "", elements := [] }

/-- The whole retained-snapshot map after running `inputs`. -/
def expectedSnapshots (inputs : List SnapInput) : List (Nat × ElementSnapshot) :=
  (versWindow inputs.length).map (fun v => (v, expectedSnap inputs v))

/-- The intent of scenario S3: `github.com` is the only allowed domain. -/
def ghIntent : BrowsingIntent :=
  { goal := "Check my issues on github",
    taskType := TaskType.interact,
    allowedDomains := ["github.com"],
    allowedActions := TASK_ACTIONS TaskType.interact,
    sensitiveData := [],
    maxDepth := 5,
    timeout := 60000,
    originalRequest := "Check my issues on github.com" }

def ghFilter : HttpFilter := createFilterFromIntent ghIntent

/-- A neutral execution context used by concrete policy checks. -/
def sampleCtx : ExecutionContext :=
  { currentUrl := "https://example.com/cart", currentDomain := "example.com",
    visitedUrls := [], depth := 1, startTime := 0 }

/-- A plain form-submission click: the static confirm-form-submit rule's
scope covers it and no security predicate fires on it. -/
def plainClick : BrowserAction :=
  { actionType := ActionType.click, target := some "#submit-button",
    description := "Submit form" }

/-- A concrete observed element used by the snapshot witnesses. -/
def cancelButton : ObservedElement :=
  { selector := "#cancel", tagName := "button", text := some "Cancel Order" }

/-- Two concrete snapshot inputs (scenario S4: the page mutated between
snapshot 1 and snapshot 2). -/
def sampleInputs : List SnapInput :=
  [("https://shop.example/orders", [cancelButton], 100),
   ("https://shop.example/orders", [cancelButton, cancelButton], 200)]

-- ==========================================================================
-- Helper lemmas
-- ==========================================================================

theorem checkSecurityRules_payment_denied (intent : Option BrowsingIntent)
    (a : BrowserAction) (ctx : ExecutionContext)
    (h : testPayment a.description = true) :
    (checkSecurityRules intent a ctx).allowed = false := by
  unfold checkSecurityRules
  split
  · rfl
  · have hd : a.description ≠ "" := by
      intro he
      rw [he] at h
      exact absurd h (by decide)
    simp [hd, h]

theorem checkSecurityRules_effect_not_confirm (intent : Option BrowsingIntent)
    (a : BrowserAction) (ctx : ExecutionContext) :
    (checkSecurityRules intent a ctx).effect ≠ PolicyEffect.confirm := by
  unfold checkSecurityRules
  repeat' split
  all_goals simp [defaultAllowDecision]

theorem checkDomainAllowed_effect_not_confirm (intent : Option BrowsingIntent)
    (url : String) :
    (checkDomainAllowed intent url).effect ≠ PolicyEffect.confirm := by
  unfold checkDomainAllowed
  cases intent with
  | none => simp [defaultAllowDecision]
  | some i =>
      cases urlHostname url with
      | none => simp
      | some d =>
          simp only []
          split
          · simp
          · split
            · simp [defaultAllowDecision]
            · simp

-- ==========================================================================
-- Claim theorems
-- ==========================================================================

/-- C3: every action whose description matches a payment indicator is
denied by `PolicyEngine.allows`, for every execution context and whatever
intent (if any) the engine was constructed with. -/
theorem payment_actions_always_denied (intent : Option BrowsingIntent)
    (a : BrowserAction) (ctx : ExecutionContext)
    (h : testPayment a.description = true) :
    (allows intent a ctx).allowed = false := by
  have hsec := checkSecurityRules_payment_denied intent a ctx h
  unfold allows
  simp only [hsec]
  simp only [reduceIte]
  exact hsec

/-- C3 witness: the injected "Pay Now" click of scenario S5 is denied even
under an engine whose intent allows clicks. -/
theorem payment_actions_always_denied_witness :
    testPayment "Click Pay Now button" = true ∧
    (allows (some ghIntent)
      { actionType := ActionType.click, target := some "#buy-btn",
        description := "Click Pay Now button" } sampleCtx).allowed = false :=
  ⟨by decide,
   payment_actions_always_denied (some ghIntent)
     { actionType := ActionType.click, target := some "#buy-btn",
       description := "Click Pay Now button" } sampleCtx (by decide)⟩

/-- C9: an engine constructed without an intent allows every action that
passes the security short-circuit - no domain, malicious-host or
action-alphabet check happens, and the decision is the default allow. -/
theorem no_intent_allows_everything (a : BrowserAction) (ctx : ExecutionContext)
    (h1 : ∀ t, a.target = some t → testExecutable t = false)
    (h2 : testPayment a.description = false) :
    allows none a ctx = defaultAllowDecision := by
  have hc1 : (targetTruthy a && testExecutable (a.target.getD "")) = false := by
    cases ht : a.target with
    | none => simp [targetTruthy, ht]
    | some t =>
        by_cases he : t = ""
        · simp [targetTruthy, ht, he]
        · simp [targetTruthy, ht, he, h1 t ht]
  have hsec : checkSecurityRules none a ctx = defaultAllowDecision := by
    unfold checkSecurityRules
    rw [hc1]
    simp [h2, intentTaskIsLogin]
  unfold allows
  rw [hsec]
  simp [checkDomainAllowed, defaultAllowDecision]

/-- C9 witness: without an intent, even navigation to a known-malicious
host passes (the malicious-domain check lives behind the intent check). -/
theorem no_intent_allows_everything_witness :
    allows none
      { actionType := ActionType.navigate, target := some "https://phishing.evil/x",
        description := "go somewhere" } sampleCtx = defaultAllowDecision :=
  no_intent_allows_everything
    { actionType := ActionType.navigate, target := some "https://phishing.evil/x",
      description := "go somewhere" } sampleCtx
    (by intro t ht; cases ht; decide) (by decide)

/-- C1 counterexample: for the plain form-submission click, the engine's
rule list contains an applicable confirm rule (static:confirm-form-submit,
scope click), the security short-circuit allows, nothing denies - and yet
`allows` returns effect `allow`, not `confirm`. -/
theorem confirm_rule_counterexample :
    ((engineRules none).any (fun r =>
        (if r.effect = PolicyEffect.confirm then true else false) &&
        (r.scope.actions.getD []).contains ActionType.click)) = true ∧
    (checkSecurityRules none plainClick sampleCtx).allowed = true ∧
    (allows none plainClick sampleCtx).allowed = true ∧
    (allows none plainClick sampleCtx).effect = PolicyEffect.allow := by
  refine ⟨by decide, by decide, by decide, by decide⟩

/-- C1 amended: `PolicyEngine.allows` never returns effect `confirm` - it
never consults the rule list, so confirm rules (such as
static:confirm-form-submit) can never surface; fallthrough yields allow. -/
theorem allows_never_confirms (intent : Option BrowsingIntent)
    (a : BrowserAction) (ctx : ExecutionContext) :
    (allows intent a ctx).effect ≠ PolicyEffect.confirm := by
  unfold allows
  simp only []
  repeat' split
  all_goals first
    | exact checkSecurityRules_effect_not_confirm intent a ctx
    | exact checkDomainAllowed_effect_not_confirm intent (a.target.getD "")
    | simp [defaultAllowDecision]

/-- C2: with an active predicted allowlist, a request to a host outside
the allowlist is denied unless the current domain's policy lists the
destination (subdomain matching); in particular the github.com filter
allows api.github.com and denies the three lookalike hosts of S3. -/
theorem predicted_allowlist_blocks_unknown_hosts :
    (∀ (f : HttpFilter) (req : HttpRequest) (cd : Option String),
      f.predictedAllowlistActive = true →
      f.predictedAllowlist.contains (extractHostname req.url) = false →
      policyAllowsDomain f cd (extractHostname req.url) = false →
      (filterHttpRequest f req cd).allowed = false ∧
      (filterHttpRequest f req cd).action = FilterAction.deny) ∧
    (filterHttpRequest ghFilter
      { url := "https://api.github.com/repos", method := "GET" } none).allowed = true ∧
    (filterHttpRequest ghFilter
      { url := "https://github.com.attacker.com/steal", method := "GET" } none).allowed = false ∧
    (filterHttpRequest ghFilter
      { url := "https://githubcom.org/x", method := "GET" } none).allowed = false ∧
    (filterHttpRequest ghFilter
      { url := "https://github-api.attacker.com/x", method := "GET" } none).allowed = false := by
  refine ⟨?_, by decide, by decide, by decide, by decide⟩
  intro f req cd h1 h2 h3
  unfold filterHttpRequest
  simp only [h1, h2, h3]
  simp

/-- C2 witness: the universal deny instantiated at the github filter and
an attacker host. -/
theorem predicted_allowlist_blocks_unknown_hosts_witness :
    (filterHttpRequest ghFilter
      { url := "https://attacker.com/collect", method := "POST" } none).allowed = false :=
  (predicted_allowlist_blocks_unknown_hosts.1 ghFilter
    { url := "https://attacker.com/collect", method := "POST" } none
    (by decide) (by decide) (by decide)).1

/-- C5: `extractDomains` falls back to the search-engine set for every
task type, not only for search tasks - the non-search request
"grab the data" (an extract task) still gets the google domains and
passes validation, where the claim expects empty domains and a
validation error. -/
theorem empty_domains_default_ignores_task_type :
    inferTaskType "grab the data" = TaskType.extract ∧
    extractDomains "grab the data" none = ["www.google.com", "google.com"] ∧
    (parseIntent "grab the data" {}).allowedDomains = ["www.google.com", "google.com"] ∧
    validateIntent (parseIntent "grab the data" {}) = { valid := true, issues := [] } := by
  refine ⟨by decide, by decide, by decide, by decide⟩

/-- `validateDAG` reads a node only through its `id` and `isTerminal`
fields; this is the same computation over that projection. -/
def validateDAGSkel (nodes : List (String × Bool)) (edges : List ConditionalEdge)
    (entry : String) : ValidationResult :=
  let nodeIds := nodes.foldl (fun acc n => addUnique acc n.1) []
  let issues1 :=
    if nodeIds.contains entry then []
    else ["Entry point does not exist in nodes: " ++ entry]
  let issues2 := edges.foldl (fun acc e =>
      let acc1 :=
        if nodeIds.contains e.fromNode then acc
        else acc ++ ["Edge references non-existent source node: " ++ e.fromNode]
      if nodeIds.contains e.toNode then acc1
      else acc1 ++ ["Edge references non-existent target node: " ++ e.toNode]) issues1
  let issues3 := nodes.foldl (fun acc n =>
      if ! n.2 && ! edges.any (fun e => e.fromNode = n.1) then
        acc ++ ["Non-terminal node has no outgoing edges: " ++ n.1]
      else acc) issues2
  let issues4 :=
    if (nodes.filter (fun n => n.2)).length = 0 then
      issues3 ++ ["DAG has no terminal nodes"]
    else issues3
  let reachable := reachIter (edges.length + 1) edges [entry]
  let issues5 := nodes.foldl (fun acc n =>
      if reachable.contains n.1 then acc
      else acc ++ ["Node is unreachable from entry point: " ++ n.1]) issues4
  { valid := issues5.length = 0, issues := issues5 }

theorem validateDAG_eq_skel (d : ExecutionDAG) :
    validateDAG d =
      validateDAGSkel (d.nodes.map (fun n => (n.id, n.isTerminal))) d.edges d.entryPoint := by
  unfold validateDAG validateDAGSkel
  simp only [List.foldl_map, List.filter_map, List.length_map, Function.comp]
  rfl

def SEARCH_SKEL : List (String × Bool) :=
  [("navigate_search", false), ("enter_query", false), ("submit_search", false),
   ("extract_results", true), ("error_captcha", true), ("error_no_results", true)]

def EXTRACT_SKEL : List (String × Bool) :=
  [("navigate_page", false), ("dismiss_popups", false), ("scroll_page", false),
   ("extract_content", true), ("error_not_found", true), ("error_access_denied", true),
   ("error_login_required", true)]

theorem search_skel_valid :
    validateDAGSkel SEARCH_SKEL (instantiateEdges SEARCH_TEMPLATE.edges)
      "navigate_search" = { valid := true, issues := [] } := by decide

theorem extract_skel_valid :
    validateDAGSkel EXTRACT_SKEL (instantiateEdges EXTRACT_TEMPLATE.edges)
      "navigate_page" = { valid := true, issues := [] } := by decide

/-- C6: the DAG built by the template planner always passes the DAG
validator, for every intent, every builder options value and every
generated identifier and timestamp. -/
theorem template_dags_validate (intent : BrowsingIntent) (options : DAGBuilderOptions)
    (idStr : String) (now : Nat) :
    validateDAG (buildDAG intent options idStr now) = { valid := true, issues := [] } := by
  rcases intent with ⟨g, tt, ad, aa, sd, md, tmo, org⟩
  rcases options with ⟨ets, outs, cons⟩
  rw [validateDAG_eq_skel]
  cases tt
  · cases ets <;> cases outs <;> exact search_skel_valid
  · cases ets <;> cases outs <;> exact extract_skel_valid
  · cases ets <;> cases outs <;> exact extract_skel_valid
  · cases ets <;> cases outs <;> exact extract_skel_valid
  · cases ets <;> cases outs <;> exact extract_skel_valid
  · cases ets <;> cases outs <;> exact extract_skel_valid

/-- C7 counterexample: a single-element batch containing a navigate action
is reported batchable, contradicting "a list containing a navigate action
is not ok". -/
theorem singleton_navigate_is_batchable :
    canBatchActions [{ actionType := "navigate", ref := "1:6" }] =
      { canBatch := true, reason := none } := rfl

theorem mem_addUniqueNat (l : List Nat) (x v : Nat) :
    v ∈ addUniqueNat l x ↔ v ∈ l ∨ v = x := by
  unfold addUniqueNat
  split
  · rename_i hc
    have hx : x ∈ l := List.mem_of_elem_eq_true hc
    constructor
    · exact fun h => Or.inl h
    · rintro (h | rfl)
      · exact h
      · exact hx
  · simp [List.mem_append]

theorem nodup_addUniqueNat (l : List Nat) (x : Nat) (h : l.Nodup) :
    (addUniqueNat l x).Nodup := by
  unfold addUniqueNat
  split
  · exact h
  · rename_i hc
    have hx : x ∉ l := fun hm => hc (List.elem_eq_true_of_mem hm)
    simp [List.nodup_append, h, hx]

theorem mem_versionsFold (actions : List BulkAction) (acc : List Nat) (v : Nat) :
    (v ∈ actions.foldl (fun acc a =>
      match parseRef a.ref with
      | some parsed => addUniqueNat acc parsed.version
      | none => acc) acc) ↔
    (v ∈ acc ∨ ∃ a, a ∈ actions ∧ ∃ r, parseRef a.ref = some r ∧ r.version = v) := by
  induction actions generalizing acc with
  | nil => simp
  | cons x xs ih =>
      simp only [List.foldl_cons]
      rw [ih]
      cases hx : parseRef x.ref with
      | none =>
          simp only [List.mem_cons]
          constructor
          · rintro (h | ⟨a, ha, r, hr, hv⟩)
            · exact Or.inl h
            · exact Or.inr ⟨a, Or.inr ha, r, hr, hv⟩
          · rintro (h | ⟨a, (rfl | ha), r, hr, hv⟩)
            · exact Or.inl h
            · rw [hx] at hr; cases hr
            · exact Or.inr ⟨a, ha, r, hr, hv⟩
      | some r0 =>
          rw [mem_addUniqueNat]
          simp only [List.mem_cons]
          constructor
          · rintro ((h | rfl) | ⟨a, ha, r, hr, hv⟩)
            · exact Or.inl h
            · exact Or.inr ⟨x, Or.inl rfl, r0, hx, rfl⟩
            · exact Or.inr ⟨a, Or.inr ha, r, hr, hv⟩
          · rintro (h | ⟨a, (rfl | ha), r, hr, hv⟩)
            · exact Or.inl (Or.inl h)
            · rw [hx] at hr
              cases hr
              exact Or.inl (Or.inr hv.symm)
            · exact Or.inr ⟨a, ha, r, hr, hv⟩

theorem nodup_versionsFold (actions : List BulkAction) (acc : List Nat) (h : acc.Nodup) :
    (actions.foldl (fun acc a =>
      match parseRef a.ref with
      | some parsed => addUniqueNat acc parsed.version
      | none => acc) acc).Nodup := by
  induction actions generalizing acc with
  | nil => exact h
  | cons x xs ih =>
      simp only [List.foldl_cons]
      cases hx : parseRef x.ref with
      | none => exact ih acc h
      | some r0 => exact ih (addUniqueNat acc r0.version) (nodup_addUniqueNat acc r0.version h)

theorem length_le_one_of_nodup (l : List Nat) (h : l.Nodup) :
    l.length ≤ 1 ↔ ∀ v ∈ l, ∀ w ∈ l, v = w := by
  cases l with
  | nil => simp
  | cons x xs =>
      cases xs with
      | nil => simp
      | cons y ys =>
          constructor
          · intro hlen
            simp at hlen
          · intro hall
            exfalso
            have hxy := hall x (List.mem_cons_self _ _) y (List.mem_cons_of_mem _ (List.mem_cons_self _ _))
            rw [List.nodup_cons] at h
            exact h.1 (hxy ▸ List.mem_cons_self _ _)

/-- C7 amended: `can_batch` is ok iff the list is a singleton (even a
navigate), or has at least two actions, none of which is a navigate, and
all actions whose refs parse agree on one snapshot version. -/
theorem can_batch_characterization (actions : List BulkAction) :
    (canBatchActions actions).canBatch = true ↔
      (actions.length = 1 ∨
       (2 ≤ actions.length ∧
        (∀ a ∈ actions, a.actionType ≠ "navigate") ∧
        ∀ a ∈ actions, ∀ b ∈ actions, ∀ ra rb,
          parseRef a.ref = some ra → parseRef b.ref = some rb →
          ra.version = rb.version)) := by
  unfold canBatchActions
  split
  · rename_i h0
    simp only [Bool.false_eq_true, false_iff]
    rintro (h1 | ⟨h2, _⟩) <;> omega
  · rename_i h0
    split
    · rename_i h1
      simp [h1]
    · rename_i h1
      split
      · rename_i hnav
        simp only [Bool.false_eq_true, false_iff]
        rintro (h | ⟨_, hno, _⟩)
        · exact h1 h
        · rw [List.any_eq_true] at hnav
          obtain ⟨a, ha, hty⟩ := hnav
          exact hno a ha (by simpa using hty)
      · rename_i hnav
        by_cases hver : 1 < (actions.foldl (fun acc a =>
            match parseRef a.ref with
            | some parsed => addUniqueNat acc parsed.version
            | none => acc) []).length
        · simp only [gt_iff_lt, hver, if_true]
          simp only [Bool.false_eq_true, false_iff]
          rintro (h | ⟨_, _, hpair⟩)
          · exact h1 h
          · have hnd := nodup_versionsFold actions [] List.nodup_nil
            rw [Nat.lt_iff_add_one_le] at hver
            have : ¬ ((actions.foldl (fun acc a =>
                match parseRef a.ref with
                | some parsed => addUniqueNat acc parsed.version
                | none => acc) []).length ≤ 1) := by omega
            rw [length_le_one_of_nodup _ hnd] at this
            apply this
            intro v hv w hw
            rw [mem_versionsFold] at hv hw
            rcases hv with hv | ⟨a, ha, ra, hra, hva⟩
            · simp at hv
            rcases hw with hw | ⟨b, hb, rb, hrb, hwb⟩
            · simp at hw
            rw [← hva, ← hwb]
            exact hpair a ha b hb ra rb hra hrb
        · simp only [gt_iff_lt, hver, if_false]
          simp only [true_iff]
          refine Or.inr ⟨by omega, ?_, ?_⟩
          · intro a ha hty
            apply hnav
            rw [List.any_eq_true]
            exact ⟨a, ha, by simp [hty]⟩
          · intro a ha b hb ra rb hra hrb
            have hnd := nodup_versionsFold actions [] List.nodup_nil
            have hle : (actions.foldl (fun acc a =>
                match parseRef a.ref with
                | some parsed => addUniqueNat acc parsed.version
                | none => acc) []).length ≤ 1 := by omega
            rw [length_le_one_of_nodup _ hnd] at hle
            have hva : ra.version ∈ actions.foldl (fun acc a =>
                match parseRef a.ref with
                | some parsed => addUniqueNat acc parsed.version
                | none => acc) [] := by
              rw [mem_versionsFold]
              exact Or.inr ⟨a, ha, ra, hra, rfl⟩
            have hvb : rb.version ∈ actions.foldl (fun acc a =>
                match parseRef a.ref with
                | some parsed => addUniqueNat acc parsed.version
                | none => acc) [] := by
              rw [mem_versionsFold]
              exact Or.inr ⟨b, hb, rb, hrb, rfl⟩
            exact hle _ hva _ hvb

/-- C7 witness for the amended characterization: two type actions on one
snapshot version batch together. -/
theorem can_batch_characterization_witness :
    (canBatchActions
      [{ actionType := "type", ref := "1:5" }, { actionType := "type", ref := "1:6" }]).canBatch = true :=
  (can_batch_characterization _).mpr
    (Or.inr ⟨by decide, by decide,
      by
        intro a ha b hb ra rb hra hrb
        fin_cases ha <;> fin_cases hb <;>
          simp_all <;> (first | (cases hra; cases hrb; rfl) | rfl)⟩)

theorem parse_serialize_one (i : Nat) (a : BulkAction)
    (h : (parseRef a.ref).isSome) :
    parseOneBulkAction i (serializeBulkAction a) = Except.ok a := by
  obtain ⟨r, hr⟩ := Option.isSome_iff_exists.mp h
  rcases a with ⟨ty, ref, text, sc, vals, dc, rc⟩
  simp only at hr
  cases text <;> cases sc <;> cases vals <;> cases dc <;> cases rc <;>
    simp [serializeBulkAction, parseOneBulkAction, itemFields, lookupAssoc, hr]

theorem parse_serialize_items (actions : List BulkAction)
    (h : ∀ a ∈ actions, (parseRef a.ref).isSome) :
    ∀ i, parseBulkItems i (actions.map serializeBulkAction) = Except.ok actions := by
  induction actions with
  | nil => intro i; rfl
  | cons x xs ih =>
      intro i
      simp only [List.map_cons, parseBulkItems]
      rw [parse_serialize_one i x (h x (List.mem_cons_self _ _))]
      rw [ih (fun a ha => h a (List.mem_cons_of_mem _ ha)) (i + 1)]

/-- C8: serializing a bulk-action batch and parsing it back returns the
original batch, whenever every action carries a syntactically valid
versioned ref. -/
theorem bulk_actions_roundtrip (actions : List BulkAction)
    (h : ∀ a ∈ actions, (parseRef a.ref).isSome) :
    parseBulkActions (serializeBulkActions actions) = Except.ok actions := by
  unfold serializeBulkActions parseBulkActions itemFields
  simp [lookupAssoc]
  exact parse_serialize_items actions h 0

/-- C8 witness: a concrete two-action batch round-trips. -/
theorem bulk_actions_roundtrip_witness :
    parseBulkActions (serializeBulkActions
      [{ actionType := "type", ref := "3:10", text := some "hello" },
       { actionType := "click", ref := "3:15", doubleClick := some true }]) =
    Except.ok
      [{ actionType := "type", ref := "3:10", text := some "hello" },
       { actionType := "click", ref := "3:15", doubleClick := some true }] :=
  bulk_actions_roundtrip _ (by
    intro a ha
    fin_cases ha <;> decide)

theorem versWindow_mem_iff (n v : Nat) :
    v ∈ versWindow n ↔ (n - min n 5 + 1 ≤ v ∧ v ≤ n) := by
  unfold versWindow
  simp only [List.mem_map, List.mem_range]
  constructor
  · rintro ⟨i, hi, rfl⟩
    omega
  · rintro ⟨h1, h2⟩
    exact ⟨v - (n - min n 5 + 1), by omega, by omega⟩

theorem versWindow_small (n : Nat) (h : n ≤ 4) :
    versWindow (n + 1) = versWindow n ++ [n + 1] := by
  unfold versWindow
  have h1 : min (n + 1) 5 = n + 1 := by omega
  have h2 : min n 5 = n := by omega
  rw [h1, h2, List.range_succ, List.map_append]
  congr 1
  · apply List.map_congr_left
    intro i _
    omega
  · simp only [List.map_cons, List.map_nil, List.cons.injEq, and_true]
    omega

theorem versWindow_big (n : Nat) (h : 5 ≤ n) :
    versWindow n = [n - 4, n - 3, n - 2, n - 1, n] := by
  unfold versWindow
  have h1 : min n 5 = 5 := by omega
  rw [h1]
  have h2 : List.range 5 = [0, 1, 2, 3, 4] := rfl
  rw [h2]
  simp only [List.map_cons, List.map_nil, List.cons.injEq, and_true]
  omega

theorem setAssoc_of_not_mem {κ α : Type} [DecidableEq κ]
    (l : List (κ × α)) (k : κ) (v : α) (h : l.any (fun p => p.1 = k) = false) :
    setAssoc l k v = l ++ [(k, v)] := by
  unfold setAssoc
  rw [h]
  simp

theorem foldl_min_of_le (ks : List Nat) : ∀ k, (∀ x ∈ ks, k ≤ x) → ks.foldl Nat.min k = k := by
  induction ks with
  | nil => intro k _; rfl
  | cons x xs ih =>
      intro k h
      simp only [List.foldl_cons]
      have hx : Nat.min k x = k := Nat.min_eq_left (h x (List.mem_cons_self _ _))
      rw [hx]
      exact ih k (fun y hy => h y (List.mem_cons_of_mem _ hy))

theorem lookupAssoc_map_pair (w : List Nat) (e : Nat → ElementSnapshot) (k : Nat) :
    lookupAssoc (w.map (fun v => (v, e v))) k =
      if k ∈ w then some (e k) else none := by
  induction w with
  | nil => simp [lookupAssoc]
  | cons v ws ih =>
      by_cases hv : v = k
      · subst hv
        simp [lookupAssoc, List.find?]
      · unfold lookupAssoc at ih ⊢
        simp only [List.map_cons, List.find?]
        have : (decide ((v, e v).1 = k)) = false := by simp [hv]
        rw [this]
        rw [ih]
        have hkv : ¬ k = v := fun he => hv he.symm
        simp [List.mem_cons, hkv]

theorem lookupAssoc_isSome_iff {α : Type} (l : List (Nat × α)) (k : Nat) :
    (lookupAssoc l k).isSome = true ↔ k ∈ l.map Prod.fst := by
  induction l with
  | nil => simp [lookupAssoc]
  | cons p ps ih =>
      unfold lookupAssoc at ih ⊢
      by_cases hp : p.1 = k
      · simp [List.find?, hp]
      · simp only [List.map_cons, List.find?]
        have : (decide (p.1 = k)) = false := by simp [hp]
        rw [this]
        rw [List.mem_cons]
        constructor
        · intro h2
          exact Or.inr (ih.mp h2)
        · rintro (h2 | h2)
          · exact absurd h2.symm hp
          · exact ih.mpr h2

theorem buildSnapshotElems_keys (es : List ObservedElement) :
    (buildSnapshotElems es).map Prod.fst = (List.range es.length).map (fun i => i + 1) := by
  unfold buildSnapshotElems
  rw [List.map_map]
  have : ((fun p : Nat × SnapshotElement => p.1) ∘
      (fun p : Nat × ObservedElement => (p.1 + 1, mkSnapshotElement (p.1 + 1) p.2))) =
      (fun p : Nat × ObservedElement => p.1 + 1) := rfl
  rw [this]
  have h2 : (fun p : Nat × ObservedElement => p.1 + 1) =
      ((fun i => i + 1) ∘ (fun p : Nat × ObservedElement => p.1)) := rfl
  rw [h2, ← List.map_map, List.enum_map_fst]

theorem expectedSnap_append (xs : List SnapInput) (x : SnapInput) (v : Nat)
    (h1 : 1 ≤ v) (h2 : v ≤ xs.length) :
    expectedSnap (xs ++ [x]) v = expectedSnap xs v := by
  unfold expectedSnap
  rw [List.get?_append (by omega)]

theorem expectedSnap_last (xs : List SnapInput) (x : SnapInput) :
    expectedSnap (xs ++ [x]) (xs.length + 1) =
      { version := xs.length + 1, timestamp := x.2.2, url := x.1,
        elements := buildSnapshotElems x.2.1 } := by
  unfold expectedSnap
  have h : xs.length + 1 - 1 = xs.length := by omega
  rw [h, List.get?_concat_length]

theorem runSnapshots_spec (inputs : List SnapInput) :
    (runSnapshots {} inputs).currentVersion = inputs.length ∧
    (runSnapshots {} inputs).snapshots = expectedSnapshots inputs := by
  induction inputs using List.reverseRecOn with
  | nil => exact ⟨rfl, rfl⟩
  | append_singleton xs x ih =>
      obtain ⟨ihv, ihs⟩ := ih
      have hstep : runSnapshots {} (xs ++ [x]) =
          (createSnapshot (runSnapshots {} xs) x.1 x.2.1 x.2.2).1 := by
        unfold runSnapshots
        rw [List.foldl_append]
        rfl
      rw [hstep]
      unfold createSnapshot
      simp only [ihv, ihs]
      set snapNew : ElementSnapshot :=
          { version := xs.length + 1, timestamp := x.2.2, url := x.1, elements := buildSnapshotElems x.2.1 }
        with hsnap
      have hkeys : (expectedSnapshots xs).any (fun p => p.1 = xs.length + 1) = false := by
        rw [List.any_eq_false]
        intro p hp
        unfold expectedSnapshots at hp
        rw [List.mem_map] at hp
        obtain ⟨v, hv, rfl⟩ := hp
        rw [versWindow_mem_iff] at hv
        simp only [decide_eq_true_eq]
        omega
      rw [setAssoc_of_not_mem _ _ _ hkeys]
      have hlast : expectedSnap (xs ++ [x]) (xs.length + 1) = snapNew := by
        rw [expectedSnap_last, hsnap]
      have hlen : (expectedSnapshots xs ++ [(xs.length + 1, snapNew)]).length =
          min xs.length 5 + 1 := by
        unfold expectedSnapshots versWindow
        simp
      refine ⟨by simp, ?_⟩
      by_cases hN : xs.length ≤ 4
      · have hcond : ¬ ((expectedSnapshots xs ++ [(xs.length + 1, snapNew)]).length > maxSnapshots) := by
          rw [hlen]
          unfold maxSnapshots
          omega
        rw [if_neg hcond]
        unfold expectedSnapshots
        simp only [List.length_append, List.length_cons, List.length_nil, Nat.zero_add]
        rw [versWindow_small xs.length hN, List.map_append]
        congr 1
        · apply List.map_congr_left
          intro v hv
          rw [versWindow_mem_iff] at hv
          rw [expectedSnap_append xs x v (by omega) (by omega)]
        · simp only [List.map_cons, List.map_nil, List.length_append]
          rw [hlast]
      · have h5 : 5 ≤ xs.length := by omega
        have hcond : (expectedSnapshots xs ++ [(xs.length + 1, snapNew)]).length > maxSnapshots := by
          rw [hlen]
          unfold maxSnapshots
          omega
        rw [if_pos hcond]
        have hexp : expectedSnapshots xs =
            [(xs.length - 4, expectedSnap xs (xs.length - 4)),
             (xs.length - 3, expectedSnap xs (xs.length - 3)),
             (xs.length - 2, expectedSnap xs (xs.length - 2)),
             (xs.length - 1, expectedSnap xs (xs.length - 1)),
             (xs.length, expectedSnap xs xs.length)] := by
          unfold expectedSnapshots
          rw [versWindow_big xs.length h5]
          rfl
        rw [hexp]
        have hmin : minKey ([(xs.length - 4, expectedSnap xs (xs.length - 4)),
             (xs.length - 3, expectedSnap xs (xs.length - 3)),
             (xs.length - 2, expectedSnap xs (xs.length - 2)),
             (xs.length - 1, expectedSnap xs (xs.length - 1)),
             (xs.length, expectedSnap xs xs.length)] ++ [(xs.length + 1, snapNew)]) =
            xs.length - 4 := by
          unfold minKey
          simp only [List.cons_append, List.nil_append, List.map_cons, List.map_nil]
          apply foldl_min_of_le
          intro y hy
          simp only [List.mem_cons, List.not_mem_nil, or_false] at hy
          rcases hy with rfl | rfl | rfl | rfl | rfl <;> omega
        rw [hmin]
        unfold deleteKey
        have d0 : (decide (xs.length - 4 ≠ xs.length - 4)) = false := by simp
        have d1 : (decide (xs.length - 3 ≠ xs.length - 4)) = true := by
          simp only [decide_eq_true_eq, ne_eq]
          omega
        have d2 : (decide (xs.length - 2 ≠ xs.length - 4)) = true := by
          simp only [decide_eq_true_eq, ne_eq]
          omega
        have d3 : (decide (xs.length - 1 ≠ xs.length - 4)) = true := by
          simp only [decide_eq_true_eq, ne_eq]
          omega
        have d4 : (decide (xs.length ≠ xs.length - 4)) = true := by
          simp only [decide_eq_true_eq, ne_eq]
          omega
        have d5 : (decide (xs.length + 1 ≠ xs.length - 4)) = true := by
          simp only [decide_eq_true_eq, ne_eq]
          omega
        simp only [List.cons_append, List.nil_append, List.filter_cons, List.filter_nil,
          d0, d1, d2, d3, d4, d5]
        simp only [Bool.false_eq_true, if_false, if_true]
        unfold expectedSnapshots
        simp only [List.length_append, List.length_cons, List.length_nil, Nat.zero_add]
        have hbig : versWindow (xs.length + 1) =
            [xs.length - 3, xs.length - 2, xs.length - 1, xs.length, xs.length + 1] := by
          rw [versWindow_big (xs.length + 1) (by omega)]
          simp only [List.cons.injEq, and_true]
          omega
        rw [hbig]
        simp only [List.map_cons, List.map_nil]
        rw [expectedSnap_append xs x (xs.length - 3) (by omega) (by omega),
            expectedSnap_append xs x (xs.length - 2) (by omega) (by omega),
            expectedSnap_append xs x (xs.length - 1) (by omega) (by omega),
            expectedSnap_append xs x xs.length (by omega) (by omega),
            hlast]

theorem lookup_buildSnapshotElems_isSome (es : List ObservedElement) (R : Nat) :
    (lookupAssoc (buildSnapshotElems es) R).isSome = true ↔ (1 ≤ R ∧ R ≤ es.length) := by
  rw [lookupAssoc_isSome_iff, buildSnapshotElems_keys]
  simp only [List.mem_map, List.mem_range]
  constructor
  · rintro ⟨i, hi, rfl⟩
    omega
  · rintro ⟨h1, h2⟩
    exact ⟨R - 1, by omega, by omega⟩

/-- C10: after `N` snapshots on a fresh manager, the version counter is
`N`, the retained versions are exactly `max 1 (N-4)` through `N` (at most
five, oldest evicted first), and each retained snapshot is the one built
from the corresponding input, with refs 1 through K assigned in input
order. -/
theorem snapshot_history_window (inputs : List SnapInput) :
    (runSnapshots {} inputs).currentVersion = inputs.length ∧
    (∀ v, v ∈ (runSnapshots {} inputs).snapshots.map Prod.fst ↔
      (1 ≤ v ∧ v ≤ inputs.length ∧ inputs.length ≤ v + 4)) ∧
    (∀ v snap, (v, snap) ∈ (runSnapshots {} inputs).snapshots →
      ∃ inp, inputs.get? (v - 1) = some inp ∧
        snap = { version := v, timestamp := inp.2.2, url := inp.1,
                 elements := buildSnapshotElems inp.2.1 } ∧
        snap.elements.map Prod.fst =
          (List.range inp.2.1.length).map (fun i => i + 1)) := by
  obtain ⟨hv, hs⟩ := runSnapshots_spec inputs
  refine ⟨hv, ?_, ?_⟩
  · intro v
    rw [hs]
    unfold expectedSnapshots
    rw [List.map_map]
    have hid : ((Prod.fst ∘ fun v => (v, expectedSnap inputs v)) :
        Nat → Nat) = (fun v => v) := rfl
    rw [hid]
    simp only [List.map_id']
    rw [versWindow_mem_iff]
    omega
  · intro v snap hmem
    rw [hs] at hmem
    unfold expectedSnapshots at hmem
    rw [List.mem_map] at hmem
    obtain ⟨v', hv', heq⟩ := hmem
    obtain ⟨rfl, rfl⟩ : v' = v ∧ expectedSnap inputs v' = snap := by
      exact ⟨congrArg Prod.fst heq, congrArg Prod.snd heq⟩
    rw [versWindow_mem_iff] at hv'
    have hlt : v' - 1 < inputs.length := by omega
    obtain ⟨inp, hinp⟩ : ∃ inp, inputs.get? (v' - 1) = some inp :=
      ⟨_, List.get?_eq_get hlt⟩
    refine ⟨inp, hinp, ?_, ?_⟩
    · unfold expectedSnap
      rw [hinp]
    · unfold expectedSnap
      rw [hinp]
      exact buildSnapshotElems_keys inp.2.1

/-- C4: after `N ≥ 1` snapshots, `validate_ref` accepts exactly the refs
"V:R" with `V = N` and `R` a live key of snapshot `N` (1 through the
number of elements supplied to the last `create_snapshot`); every other
string - stale version, missing ref or malformed - is rejected with an
error message. -/
theorem validate_ref_characterization (inputs : List SnapInput)
    (hne : inputs ≠ []) (s : String) :
    ((validateRef (runSnapshots {} inputs) s).valid = true ↔
      ∃ r, parseRef s = some r ∧ r.version = inputs.length ∧
        ∃ inp, inputs.getLast? = some inp ∧ 1 ≤ r.ref ∧ r.ref ≤ inp.2.1.length) ∧
    ((validateRef (runSnapshots {} inputs) s).valid = false →
      (validateRef (runSnapshots {} inputs) s).error ≠ none) := by
  obtain ⟨hv, hs⟩ := runSnapshots_spec inputs
  have hN : 1 ≤ inputs.length := List.length_pos.mpr hne
  have hlast : inputs.getLast? = inputs.get? (inputs.length - 1) :=
    List.getLast?_eq_get? inputs
  unfold validateRef
  cases hparse : parseRef s with
  | none => simp
  | some r =>
      simp only [hv, hs, Option.some.injEq, exists_eq_left']
      by_cases hver : r.version = inputs.length
      · rw [if_neg (by omega)]
        have hwin : r.version ∈ versWindow inputs.length := by
          rw [versWindow_mem_iff]
          omega
        unfold expectedSnapshots
        rw [lookupAssoc_map_pair, if_pos hwin]
        obtain ⟨inp, hinp⟩ : ∃ inp, inputs.get? (r.version - 1) = some inp :=
          ⟨_, List.get?_eq_get (by omega)⟩
        have hlast2 : inputs.getLast? = some inp := by
          rw [hlast, ← hver]
          exact hinp
        unfold expectedSnap
        rw [hinp]
        simp only []
        cases hel : lookupAssoc (buildSnapshotElems inp.2.1) r.ref with
        | none =>
            refine ⟨?_, fun _ => by simp⟩
            constructor
            · intro hfalse
              simp at hfalse
            · rintro ⟨hvv, inp', hinp', h1, h2⟩
              rw [hlast2] at hinp'
              cases hinp'
              have hsome : (lookupAssoc (buildSnapshotElems inp.2.1) r.ref).isSome = true :=
                (lookup_buildSnapshotElems_isSome inp.2.1 r.ref).mpr ⟨h1, h2⟩
              rw [hel] at hsome
              simp at hsome
        | some el =>
            refine ⟨?_, fun hfalse => by simp at hfalse⟩
            constructor
            · intro _
              have hsome : (lookupAssoc (buildSnapshotElems inp.2.1) r.ref).isSome = true := by
                rw [hel]
                rfl
              obtain ⟨h1, h2⟩ := (lookup_buildSnapshotElems_isSome inp.2.1 r.ref).mp hsome
              exact ⟨hver, inp, hlast2, h1, h2⟩
            · intro _
              rfl
      · rw [if_pos (by omega)]
        refine ⟨?_, fun _ => by simp⟩
        constructor
        · intro hfalse
          simp at hfalse
        · rintro ⟨hvv, _⟩
          exact absurd hvv hver

/-- C4 witness: after the two sample snapshots, "2:1" is accepted while
the stale "1:1" and the out-of-range "2:3" are rejected. -/
theorem validate_ref_characterization_witness :
    (validateRef (runSnapshots {} sampleInputs) "2:1").valid = true ∧
    (validateRef (runSnapshots {} sampleInputs) "1:1").valid = false ∧
    (validateRef (runSnapshots {} sampleInputs) "2:3").valid = false :=
  ⟨(validate_ref_characterization sampleInputs (by decide) "2:1").1.mpr
      ⟨{ version := 2, ref := 1 }, by decide, by decide,
        ("https://shop.example/orders", [cancelButton, cancelButton], 200),
        by decide, by decide, by decide⟩,
   by decide, by decide⟩
